import Mathlib

/-!
# opengl-example: a shallow embedding of `main.c`

The development follows the source file top to bottom.

* C `float` is the IEEE 754 binary32 format (`F32`): every operation rounds to nearest,
  ties to even; `tick32` is the animation update of the program. The specification also
  states the update with the arithmetic taken exactly; that reading is `tick`, over the
  rationals.
* C `int` values are integers; where the source computes an array index the
  32-bit range is checked at every intermediate result.
* Calls into the C library, GLFW, OpenGL and the image decoder are answers
  supplied by an environment record; `abort()` and `exit(1)` end a run with
  the text written to the error stream so far.
-/

namespace OpenglExample

/-! ## Animation state with the arithmetic taken exactly (lines 242-246 and 271-274) -/

/-- The moving body with exact values: the locals `x`, `y`, `dx`, `dy`, `r` of `main`
read as rationals. -/
structure Body where
  x : ℚ
  y : ℚ
  dx : ℚ
  dy : ℚ
  r : ℚ
deriving DecidableEq

/-- Lines 242-246: `r = 50`, `x = 300`, `y = 300`, `dx = 200`, `dy = 200`. -/
def initial_body : Body := { x := 300, y := 300, dx := 200, dy := 200, r := 50 }

/-- Line 257 with the division taken exactly: `dt = 1/60`. -/
def dt : ℚ := 1 / 60

/-- Line 271: `if ((x - r) <= 0.0f || (x + r) >= (float) w) dx = -dx;`. -/
def reflect_x (w : Int) (b : Body) : Body :=
  if b.x - b.r ≤ 0 ∨ b.x + b.r ≥ (w : ℚ) then { b with dx := -b.dx } else b

/-- Line 272: `if ((y - r) <= 0.0f || (y + r) >= (float) h) dy = -dy;`. -/
def reflect_y (h : Int) (b : Body) : Body :=
  if b.y - b.r ≤ 0 ∨ b.y + b.r ≥ (h : ℚ) then { b with dy := -b.dy } else b

/-- Line 273: `x += dx * dt;`. -/
def advance_x (b : Body) : Body := { b with x := b.x + b.dx * dt }

/-- Line 274: `y += dy * dt;`. -/
def advance_y (b : Body) : Body := { b with y := b.y + b.dy * dt }

/-- Lines 271-274 in order with the arithmetic taken exactly: the animation update of one
iteration of the render loop, for the window size `(w, h)` read at the start of that
iteration. -/
def tick (w h : Int) (b : Body) : Body :=
  advance_y (advance_x (reflect_y h (reflect_x w b)))

/-- The boundary condition of line 271 at the start of a tick. -/
def contact_x (w : Int) (b : Body) : Prop := b.x - b.r ≤ 0 ∨ b.x + b.r ≥ (w : ℚ)

/-- The boundary condition of line 272 at the start of a tick. -/
def contact_y (h : Int) (b : Body) : Prop := b.y - b.r ≤ 0 ∨ b.y + b.r ≥ (h : ℚ)

instance (w : Int) (b : Body) : Decidable (contact_x w b) := by
  unfold contact_x; infer_instance

instance (h : Int) (b : Body) : Decidable (contact_y h b) := by
  unfold contact_y; infer_instance

/-- A body pushed out of an 800x600 viewport on the right: `x + r = 950`. -/
def outside_body : Body := { x := 900, y := 300, dx := 200, dy := 200, r := 50 }

/-- One axis of `tick` on its own: position and velocity component `p = (x, v)` against
the radius `r` and the extent `W` of the viewport on that axis. Used to carry one proof
to both axes. -/
def axis_step (r W : ℚ) (p : ℚ × ℚ) : ℚ × ℚ :=
  let v := if p.1 - r ≤ 0 ∨ p.1 + r ≥ W then -p.2 else p.2
  (p.1 + v * dt, v)

/-! ## Binary32 arithmetic -/

/-- A value of the C type `float` in the IEEE 754 binary32 format: `finite neg m e` is
`(-1)^neg * m * 2^e` (results of the operations have `m < 2^24` and
`-149 <= e <= 104`), `inf neg` an infinity and `nan` a NaN. -/
inductive F32 where
  | finite (neg : Bool) (m : Nat) (e : Int)
  | inf (neg : Bool)
  | nan
deriving DecidableEq

/-- The position of the leading bit of `n >= 1`, with `fuel >= n`. -/
def leading_bit : Nat → Nat → Nat
  | 0, _ => 0
  | fuel + 1, n => if n < 2 then 0 else leading_bit fuel (n / 2) + 1

/-- Whether `2^e <= p / q`. -/
def pow2_le (e : Int) (p q : Nat) : Bool :=
  if e < 0 then decide (q ≤ p * 2 ^ (-e).toNat) else decide (q * 2 ^ e.toNat ≤ p)

/-- Rounding of the real number `(-1)^neg * p / q` (`q > 0`) to binary32, to nearest
with ties to the even significand, overflowing to an infinity. -/
def F32.round (neg : Bool) (p q : Nat) : F32 :=
  if p = 0 then .finite neg 0 (-149)
  else
    let e0 : Int := (leading_bit p p : Int) - (leading_bit q q : Int)
    let e1 : Int := if pow2_le e0 p q then e0 else e0 - 1
    let qe : Int := max (e1 - 23) (-149)
    let n : Nat := if qe < 0 then p * 2 ^ (-qe).toNat else p
    let d : Nat := if qe < 0 then q else q * 2 ^ qe.toNat
    let m : Nat := n / d
    let r : Nat := n % d
    let m1 : Nat := if d < 2 * r ∨ (2 * r = d ∧ m % 2 = 1) then m + 1 else m
    let m2 : Nat := if m1 = 2 ^ 24 then 2 ^ 23 else m1
    let e2 : Int := if m1 = 2 ^ 24 then qe + 1 else qe
    if 104 < e2 then .inf neg else .finite neg m2 e2

/-- The integer `(-1)^neg * m * 2^(e - e0)` for `e0 <= e`. -/
def scaled (neg : Bool) (m : Nat) (e e0 : Int) : Int :=
  if neg then -((m * 2 ^ (e - e0).toNat : Nat) : Int) else ((m * 2 ^ (e - e0).toNat : Nat) : Int)

/-- Rounding of the real number `i * 2^e`; an exact zero takes the sign `zero_neg`. -/
def F32.round_scaled (zero_neg : Bool) (i : Int) (e : Int) : F32 :=
  if i = 0 then .finite zero_neg 0 (-149)
  else if e < 0 then F32.round (decide (i < 0)) i.natAbs (2 ^ (-e).toNat)
  else F32.round (decide (i < 0)) (i.natAbs * 2 ^ e.toNat) 1

/-- The unary minus of C on `float`. -/
def F32.neg : F32 → F32
  | .finite s m e => .finite (!s) m e
  | .inf s => .inf (!s)
  | .nan => .nan

/-- The operator `+` of C on `float`. -/
def F32.add : F32 → F32 → F32
  | .nan, _ => .nan
  | _, .nan => .nan
  | .inf s, .inf t => if s = t then .inf s else .nan
  | .inf s, .finite _ _ _ => .inf s
  | .finite _ _ _, .inf t => .inf t
  | .finite s1 m1 e1, .finite s2 m2 e2 =>
    F32.round_scaled (s1 && s2) (scaled s1 m1 e1 (min e1 e2) + scaled s2 m2 e2 (min e1 e2))
      (min e1 e2)

/-- The operator `-` of C on `float`. -/
def F32.sub (a b : F32) : F32 := F32.add a (F32.neg b)

/-- The operator `*` of C on `float`. -/
def F32.mul : F32 → F32 → F32
  | .nan, _ => .nan
  | _, .nan => .nan
  | .inf s, .inf t => .inf (xor s t)
  | .inf s, .finite t m _ => if m = 0 then .nan else .inf (xor s t)
  | .finite s m _, .inf t => if m = 0 then .nan else .inf (xor s t)
  | .finite s1 m1 e1, .finite s2 m2 e2 =>
    F32.round_scaled (xor s1 s2) (scaled (xor s1 s2) (m1 * m2) 0 0) (e1 + e2)

/-- The operator `/` of C on `float`. -/
def F32.div : F32 → F32 → F32
  | .nan, _ => .nan
  | _, .nan => .nan
  | .inf _, .inf _ => .nan
  | .inf s, .finite t _ _ => .inf (xor s t)
  | .finite s _ _, .inf t => .finite (xor s t) 0 (-149)
  | .finite s1 m1 e1, .finite s2 m2 e2 =>
    if m2 = 0 then (if m1 = 0 then .nan else .inf (xor s1 s2))
    else F32.round (xor s1 s2) (m1 * 2 ^ (e1 - e2).toNat) (m2 * 2 ^ (e2 - e1).toNat)

/-- The operator `<=` of C on `float`. -/
def F32.le : F32 → F32 → Bool
  | .nan, _ => false
  | _, .nan => false
  | .inf s, .inf t => s || !t
  | .inf s, .finite _ _ _ => s
  | .finite _ _ _, .inf t => !t
  | .finite s1 m1 e1, .finite s2 m2 e2 =>
    decide (scaled s1 m1 e1 (min e1 e2) ≤ scaled s2 m2 e2 (min e1 e2))

/-- The operator `>=` of C on `float`. -/
def F32.ge (a b : F32) : Bool := F32.le b a

/-- The operator `<` of C on `float`. -/
def F32.lt : F32 → F32 → Bool
  | .nan, _ => false
  | _, .nan => false
  | a, b => !F32.le b a

/-- The conversion `(float) i` of an `int`, and the value of a literal such as `50.0f`. -/
def F32.of_int (i : Int) : F32 := F32.round (decide (i < 0)) i.natAbs 1

/-- The fused multiply-add `a * b + c`, rounded once. -/
def F32.fma : F32 → F32 → F32 → F32
  | .finite s1 m1 e1, .finite s2 m2 e2, .finite s3 m3 e3 =>
    F32.round_scaled ((xor s1 s2) && s3)
      (scaled (xor s1 s2) (m1 * m2) (e1 + e2) (min (e1 + e2) e3)
        + scaled s3 m3 e3 (min (e1 + e2) e3))
      (min (e1 + e2) e3)
  | a, b, c => F32.add (F32.mul a b) c

/-- The real number a finite binary32 value stands for; 0 for an infinity or a NaN. -/
def F32.value : F32 → ℚ
  | .finite neg m e => (if neg then -1 else 1) * (m : ℚ) * (2 : ℚ) ^ e
  | _ => 0

/-- Whether the value is neither an infinity nor a NaN. -/
def F32.is_finite : F32 → Bool
  | .finite _ _ _ => true
  | _ => false

/-! ## Animation state of the program (`main`, lines 242-246, 257 and 271-274) -/

/-- The moving body: the `float` locals `x`, `y`, `dx`, `dy`, `r` of `main`. -/
structure Body32 where
  x : F32
  y : F32
  dx : F32
  dy : F32
  r : F32
deriving DecidableEq

/-- Lines 242-246: `r = 50.0f`, `x = 300.0f`, `y = 300.0f`, `dx = 200.0f`, `dy = 200.0f`. -/
def initial_body32 : Body32 :=
  { r := F32.of_int 50, x := F32.of_int 300, y := F32.of_int 300,
    dx := F32.of_int 200, dy := F32.of_int 200 }

/-- Line 257: `const float dt = 1.0f / 60.0f`, the binary32 value `8947849 * 2^-29`. -/
def dt32 : F32 := F32.div (F32.of_int 1) (F32.of_int 60)

/-- Line 271: `if ((x - r) <= 0.0f || (x + r) >= (float) w) dx = -dx;`. -/
def reflect_x32 (w : Int) (b : Body32) : Body32 :=
  if F32.le (F32.sub b.x b.r) (F32.of_int 0) || F32.ge (F32.add b.x b.r) (F32.of_int w) then
    { b with dx := F32.neg b.dx }
  else b

/-- Line 272: `if ((y - r) <= 0.0f || (y + r) >= (float) h) dy = -dy;`. -/
def reflect_y32 (h : Int) (b : Body32) : Body32 :=
  if F32.le (F32.sub b.y b.r) (F32.of_int 0) || F32.ge (F32.add b.y b.r) (F32.of_int h) then
    { b with dy := F32.neg b.dy }
  else b

/-- The expression `c + a * b` of `c += a * b`: the product and the sum are rounded one
after the other, or, when the compiler contracts the expression (`contract`), once. -/
def mul_add32 (contract : Bool) (a b c : F32) : F32 :=
  if contract then F32.fma a b c else F32.add c (F32.mul a b)

/-- Line 273: `x += dx * dt;`. -/
def advance_x32 (contract : Bool) (b : Body32) : Body32 :=
  { b with x := mul_add32 contract b.dx dt32 b.x }

/-- Line 274: `y += dy * dt;`. -/
def advance_y32 (contract : Bool) (b : Body32) : Body32 :=
  { b with y := mul_add32 contract b.dy dt32 b.y }

/-- Lines 271-274 in order: the animation update of one iteration of the render loop,
for the window size `(w, h)` read at the start of that iteration. -/
def tick32 (contract : Bool) (w h : Int) (b : Body32) : Body32 :=
  advance_y32 contract (advance_x32 contract (reflect_y32 h (reflect_x32 w b)))

/-- The boundary condition of line 271 as the program evaluates it. -/
def contact_x32 (w : Int) (b : Body32) : Prop :=
  (F32.le (F32.sub b.x b.r) (F32.of_int 0) || F32.ge (F32.add b.x b.r) (F32.of_int w)) = true

/-- The boundary condition of line 272 as the program evaluates it. -/
def contact_y32 (h : Int) (b : Body32) : Prop :=
  (F32.le (F32.sub b.y b.r) (F32.of_int 0) || F32.ge (F32.add b.y b.r) (F32.of_int h)) = true

instance (w : Int) (b : Body32) : Decidable (contact_x32 w b) := by
  unfold contact_x32; infer_instance

instance (h : Int) (b : Body32) : Decidable (contact_y32 h b) := by
  unfold contact_y32; infer_instance

/-- The bounding circle lies strictly inside the viewport on the x axis: `x - r > 0` and
`x + r < w` for the real numbers that `x` and `r` stand for. -/
def inside_x32 (w : Int) (b : Body32) : Prop :=
  b.x.is_finite = true ∧ b.r.is_finite = true
    ∧ b.x.value - b.r.value > 0 ∧ b.x.value + b.r.value < (w : ℚ)

/-- The bounding circle lies strictly inside the viewport on the y axis. -/
def inside_y32 (h : Int) (b : Body32) : Prop :=
  b.y.is_finite = true ∧ b.r.is_finite = true
    ∧ b.y.value - b.r.value > 0 ∧ b.y.value + b.r.value < (h : ℚ)

/-- One axis of `tick32` on its own: position and velocity component `p = (x, v)` against
the radius `r` and the extent `W` of the viewport on that axis. Used to carry one proof
to both axes. -/
def axis_step32 (contract : Bool) (r : F32) (W : Int) (p : F32 × F32) : F32 × F32 :=
  let v := if F32.le (F32.sub p.1 r) (F32.of_int 0) || F32.ge (F32.add p.1 r) (F32.of_int W)
    then F32.neg p.2 else p.2
  (mul_add32 contract v dt32 p.1, v)

/-- A body of radius 1 one unit in the last place to the right of the left edge,
`x = 1 + 2^-23`, moving left with the speed of the program. -/
def edge_body32 : Body32 :=
  { x := .finite false 8388609 (-23), y := F32.of_int 300, dx := F32.of_int (-200),
    dy := F32.of_int 200, r := F32.of_int 1 }

/-- The body of the program pushed out of an 800x600 viewport on the right: `x = 900`,
`x + r = 950`. -/
def pushed_body32 : Body32 :=
  { x := F32.of_int 900, y := F32.of_int 300, dx := F32.of_int 200, dy := F32.of_int 200,
    r := F32.of_int 50 }

/-- The body of the program at the start of tick 97 of its run, `x = 10212693 * 2^-14`
(about 623.33331). -/
def body97 : Body32 :=
  { x := .finite false 10212693 (-14), y := .finite false 15619431 (-15),
    dx := F32.of_int 200, dy := F32.of_int (-200), r := F32.of_int 50 }

/-! ## Process endings and C formatting -/

/-- How a run of the process ends other than by returning normally. -/
inductive Fatal where
  /-- The call `abort()`, with the text written to the error stream before it. -/
  | aborted (stderr : String)
  /-- The call `exit(code)`, with the text written to the error stream before it. -/
  | exited (code : Int) (stderr : String)
  /-- Behaviour the C standard leaves undefined (signed overflow, read outside an array,
  use of bytes that were never written). -/
  | undefined
  /-- The bounded unrolling of a loop ended before the loop did. -/
  | out_of_fuel
deriving DecidableEq

deriving instance DecidableEq for Except

/-- The conversion `%d` of `printf`. -/
def fmt_d (v : Int) : String :=
  if v < 0 then "-" ++ Nat.repr v.natAbs else Nat.repr v.toNat

/-- The conversion `%04d` of `printf`: at least four characters, padded with zeros
after the sign. -/
def fmt_04d (v : Int) : String :=
  let digits := Nat.repr v.natAbs
  if v < 0 then "-" ++ String.mk (List.replicate (3 - digits.length) '0') ++ digits
  else String.mk (List.replicate (4 - digits.length) '0') ++ digits

/-- The conversion `%.*s` of `printf`: a negative precision counts as no precision. -/
def fmt_prec_s (precision : Int) (s : String) : String :=
  if precision < 0 then s else String.mk (s.toList.take precision.toNat)

/-- The bytes of a C string of ASCII characters. -/
def cstr_bytes (s : String) : List UInt8 := s.toList.map (fun ch => UInt8.ofNat ch.toNat)

/-! ## Image writer (`save_pixels_to_ppm_file`, lines 13-37) -/

/-- Line 13: `#define OPENGL_WIDTH 800`. -/
def OPENGL_WIDTH : Int := 800

/-- Line 14: `#define OPENGL_HEIGHT 600`. -/
def OPENGL_HEIGHT : Int := 600

/-- Line 16: the number of elements of `uint8_t pixels[4 * OPENGL_WIDTH * OPENGL_HEIGHT]`. -/
def PIXELS_SIZE : Nat := (4 * OPENGL_WIDTH * OPENGL_HEIGHT).toNat

/-- Line 16: a content of the global array `pixels`. -/
abbrev PixelBuffer := Fin PIXELS_SIZE → UInt8

/-- Smallest value of a 32-bit `int`. -/
def INT_MIN : Int := -2147483648

/-- Largest value of a 32-bit `int`. -/
def INT_MAX : Int := 2147483647

/-- A result of `int` arithmetic: defined only inside the 32-bit range. -/
def int_result (v : Int) : Option Int :=
  if INT_MIN ≤ v ∧ v ≤ INT_MAX then some v else none

/-- Lines 31-33: the index expression
`(OPENGL_HEIGHT - y - 1) * OPENGL_WIDTH * 4 + x * 4 + c`, evaluated left to right in
`int` arithmetic. -/
def pixel_index (y x c : Int) : Option Int := do
  let a ← int_result (OPENGL_HEIGHT - y)
  let a ← int_result (a - 1)
  let a ← int_result (a * OPENGL_WIDTH)
  let a ← int_result (a * 4)
  let b ← int_result (x * 4)
  let a ← int_result (a + b)
  int_result (a + c)

/-- The read `pixels[i]`: defined only inside the array. -/
def pixels_at (pixels : PixelBuffer) (i : Int) : Option UInt8 :=
  if h : 0 ≤ i ∧ i < (PIXELS_SIZE : Int) then some (pixels ⟨i.toNat, by omega⟩) else none

/-- The call `fputc(c, f)` on a stream held as the list of bytes written so far. -/
def fputc (c : UInt8) (f : List UInt8) : List UInt8 := f ++ [c]

/-- One of lines 31-33: `fputc(pixels[... + c], f)`. -/
def put_channel (pixels : PixelBuffer) (y x c : Int) (f : List UInt8) : Option (List UInt8) := do
  let i ← pixel_index y x c
  let v ← pixels_at pixels i
  pure (fputc v f)

/-- Lines 31-33: the body of the inner loop. -/
def put_pixel (pixels : PixelBuffer) (y x : Nat) (f : List UInt8) : Option (List UInt8) := do
  let f ← put_channel pixels y x 0 f
  let f ← put_channel pixels y x 1 f
  put_channel pixels y x 2 f

/-- Lines 30-34: `for (int x = 0; x < OPENGL_WIDTH; ++x)`. -/
def put_row (pixels : PixelBuffer) (y : Nat) (f : List UInt8) : Option (List UInt8) :=
  (List.range OPENGL_WIDTH.toNat).foldlM (fun f x => put_pixel pixels y x f) f

/-- Lines 29-35: `for (int y = 0; y < OPENGL_HEIGHT; ++y)`. -/
def put_rows (pixels : PixelBuffer) (f : List UInt8) : Option (List UInt8) :=
  (List.range OPENGL_HEIGHT.toNat).foldlM (fun f y => put_row pixels y f) f

/-- Line 28: the text written by
`fprintf(f, "P6\n%d %d\n%d\n", OPENGL_WIDTH, OPENGL_HEIGHT, 255)`. -/
def ppm_header : String :=
  "P6\n" ++ fmt_d OPENGL_WIDTH ++ " " ++ fmt_d OPENGL_HEIGHT ++ "\n" ++ fmt_d 255 ++ "\n"

/-- Lines 19-37. `fopen_ok` says whether `fopen(file_path, "wb")` gave a stream and
`strerror` is the text of `strerror(errno)`; the result is the content of the file. -/
def save_pixels_to_ppm_file (fopen_ok : Bool) (strerror : String) (pixels : PixelBuffer)
    (file_path : String) : Except Fatal (List UInt8) :=
  if !fopen_ok then
    .error (.exited 1 ("Could not save to file `" ++ file_path ++ "`: " ++ strerror))
  else
    match put_rows pixels (cstr_bytes ppm_header) with
    | some f => .ok f
    | none => .error .undefined

/-! ### Names for the bytes written, used in the proofs -/

/-- The byte of `pixels` at a natural index, `0` outside the array. -/
def byte_at (pixels : PixelBuffer) (i : Nat) : UInt8 :=
  if h : i < PIXELS_SIZE then pixels ⟨i, h⟩ else 0

/-- The three bytes written for output row `y`, column `x`. -/
def pixel_bytes (pixels : PixelBuffer) (y x : Nat) : List UInt8 :=
  [byte_at pixels ((599 - y) * 3200 + x * 4), byte_at pixels ((599 - y) * 3200 + x * 4 + 1),
    byte_at pixels ((599 - y) * 3200 + x * 4 + 2)]

/-- The bytes written for output row `y`. -/
def row_bytes (pixels : PixelBuffer) (y : Nat) : List UInt8 :=
  (List.range 800).flatMap (pixel_bytes pixels y)

/-- The bytes written after the header. -/
def payload_bytes (pixels : PixelBuffer) : List UInt8 :=
  (List.range 600).flatMap (row_bytes pixels)

/-! ### A reader of the PPM format, to state the round trip -/

/-- A decoded binary PPM image. -/
structure Ppm where
  width : Nat
  height : Nat
  maxval : Nat
  /-- The samples, row by row from the top, three per pixel. -/
  raster : List UInt8

/-- The sample of channel `c` (0 red, 1 green, 2 blue) of the pixel in row `row` from
the top and column `col` from the left. -/
def Ppm.sample (img : Ppm) (row col c : Nat) : Option UInt8 :=
  img.raster[3 * (row * img.width + col) + c]?

/-- White space of the PPM header: blank, TAB, LF, VT, FF, CR. -/
def ppm_is_space (b : UInt8) : Bool :=
  b = 32 || b = 9 || b = 10 || b = 11 || b = 12 || b = 13

/-- An ASCII decimal digit. -/
def ppm_is_digit (b : UInt8) : Bool := 48 ≤ b.toNat && b.toNat ≤ 57

/-- Drops leading white space. -/
def ppm_skip_spaces : List UInt8 → List UInt8
  | [] => []
  | b :: bs => if ppm_is_space b then ppm_skip_spaces bs else b :: bs

/-- Reads decimal digits onto `acc` and returns the value with the bytes left. -/
def ppm_digits (acc : Nat) : List UInt8 → Nat × List UInt8
  | [] => (acc, [])
  | b :: bs => if ppm_is_digit b then ppm_digits (acc * 10 + (b.toNat - 48)) bs else (acc, b :: bs)

/-- Reads white space and then a decimal number of at least one digit. -/
def ppm_number (bs : List UInt8) : Option (Nat × List UInt8) :=
  match ppm_skip_spaces bs with
  | [] => none
  | b :: rest => if ppm_is_digit b then some (ppm_digits 0 (b :: rest)) else none

/-- A reader of the binary PPM format: the magic number `P6`, then width, height and
maximum value in ASCII decimal separated by white space, one white-space byte, then
`3 * width * height` one-byte samples (for a maximum value below 256). -/
def ppm_read (bytes : List UInt8) : Option Ppm :=
  match bytes with
  | m1 :: m2 :: rest =>
    if m1 = 80 ∧ m2 = 54 then
      match ppm_number rest with
      | none => none
      | some (width, rest) =>
        match ppm_number rest with
        | none => none
        | some (height, rest) =>
          match ppm_number rest with
          | none => none
          | some (maxval, rest) =>
            match rest with
            | [] => none
            | b :: raster =>
              if ppm_is_space b ∧ 0 < maxval ∧ maxval < 256
                  ∧ 3 * width * height ≤ raster.length then
                some ⟨width, height, maxval, raster.take (3 * width * height)⟩
              else none
    else none
  | _ => none

/-! ## Resource loader (`file_as_cstr`, lines 48-97) -/

/-- The answers of the C library to the calls `file_as_cstr` makes on one path. -/
structure FileAnswers where
  /-- Whether `fopen(filepath, "rb")` gives a stream. -/
  fopen_ok : Bool
  /-- The bytes of the file. -/
  contents : List UInt8
  /-- Whether `fseek(f, 0, SEEK_END)` fails. -/
  fseek_end_fails : Bool
  /-- Whether `ftell(f)` fails. -/
  ftell_fails : Bool
  /-- Whether `fseek(f, 0, SEEK_SET)` fails. -/
  fseek_set_fails : Bool
  /-- Whether `calloc` gives a null pointer. -/
  calloc_fails : Bool
  /-- How many bytes the stream delivers to `fread` before a read error. -/
  fread_limit : Nat
  /-- The text of `strerror(errno)`. -/
  strerror : String

/-- The return value of `fseek`: `-1` on failure, `0` otherwise. -/
def fseek_code (fails : Bool) : Int := if fails then -1 else 0

/-- The return value of `ftell` at the end of the file: `-1` on failure, the size of
the file otherwise. -/
def ftell_value (a : FileAnswers) : Int := if a.ftell_fails then -1 else a.contents.length

/-- Lines 48-97. The result is the buffer returned, `count + 1` bytes. -/
def file_as_cstr (a : FileAnswers) (filepath : String) : Except Fatal (List UInt8) :=
  if !a.fopen_ok then
    .error (.aborted ("Could not open file `" ++ filepath ++ "`: " ++ a.strerror ++ "\n"))
  else if fseek_code a.fseek_end_fails < 0 then
    .error (.aborted ("Could find the end of file " ++ filepath ++ ": " ++ a.strerror ++ "\n"))
  else
    let m := ftell_value a
    if m < 0 then
      .error (.aborted ("Could get the end of file " ++ filepath ++ ": " ++ a.strerror ++ "\n"))
    else
      let count := m.toNat
      if fseek_code a.fseek_set_fails < 0 then
        .error (.aborted ("Could not find the beginning of file " ++ filepath ++ ": "
          ++ a.strerror ++ "\n"))
      else if a.calloc_fails then
        .error (.aborted ("Could not allocate memory for file " ++ filepath ++ ": "
          ++ a.strerror ++ "\n"))
      else
        let n := min count a.fread_limit
        let buffer := a.contents.take n ++ List.replicate (count + 1 - n) 0
        if n ≠ count then
          .error (.aborted ("Could not read file " ++ filepath ++ ": " ++ a.strerror ++ "\n"))
        else .ok buffer

/-! ## Shader builder (lines 39-46 and 99-143) -/

/-- The value of `GL_FRAGMENT_SHADER` in the OpenGL headers. -/
def GL_FRAGMENT_SHADER : Nat := 0x8B30

/-- The value of `GL_VERTEX_SHADER` in the OpenGL headers. -/
def GL_VERTEX_SHADER : Nat := 0x8B31

/-- The value of `GL_TRUE` in the OpenGL headers. -/
def GL_TRUE : Int := 1

/-- Lines 39-46. -/
def gl_shader_type_as_cstr (shader_type : Nat) : String :=
  if shader_type = GL_FRAGMENT_SHADER then "GL_FRAGMENT_SHADER"
  else if shader_type = GL_VERTEX_SHADER then "GL_VERTEX_SHADER"
  else "UNKNOWN"

/-- The answers of the OpenGL driver about one shader or program object. -/
structure DriverAnswers where
  /-- The handle given by `glCreateShader` or `glCreateProgram`. -/
  handle : Nat
  /-- The status stored by `glGetShaderiv` or `glGetProgramiv`. -/
  status : Int
  /-- The info log of the object, a C string. -/
  info_log : String

/-- Lines 110-113 and 134-137: the characters that `glGetShaderInfoLog` or
`glGetProgramInfoLog`, called with `MESSAGE_CAPACITY = 1024`, stores in `message` before
the terminating NUL: the info log up to its end, at most 1023 characters. The bytes of
`message` after the terminating NUL are never written. -/
def DriverAnswers.message (gl : DriverAnswers) : String :=
  String.mk ((gl.info_log.toList.takeWhile (fun ch => ch ≠ Char.ofNat 0)).take (1024 - 1))

/-- The length stored in `log_length`: the number of characters stored in `message`,
the terminating NUL not counted. -/
def DriverAnswers.log_length (gl : DriverAnswers) : Int := (gl.message.length : Int)

/-- Lines 99-121. Line 116 prints `message + 2` with the precision `log_length - 2`: for
a log of fewer than two characters the precision is negative and the string starts
after the terminating NUL, in bytes of `message` that were never written. -/
def gl_create_and_compile_shader (file : FileAnswers) (gl : DriverAnswers)
    (shader_type : Nat) (file_path : String) : Except Fatal Nat :=
  match file_as_cstr file file_path with
  | .error e => .error e
  | .ok _source =>
    if gl.status ≠ GL_TRUE then
      if gl.log_length < 2 then .error .undefined
      else
        .error (.aborted (gl_shader_type_as_cstr shader_type ++ " failed compiled:\n"
          ++ (file_path ++ ":" ++ fmt_prec_s (gl.log_length - 2) (String.mk (gl.message.toList.drop 2)))))
    else .ok gl.handle

/-- Lines 123-143. -/
def gl_create_and_link_program (gl : DriverAnswers) (_vertex_shader _fragment_shader : Nat) :
    Except Fatal Nat :=
  if gl.status ≠ GL_TRUE then
    .error (.aborted ("Program failed linkage: " ++ fmt_prec_s gl.log_length gl.message))
  else .ok gl.handle

/-! ## Startup and render loop (`main`, lines 154-301) -/

/-- What the image decoder stores on success: the pixel data and its dimensions. -/
structure Image where
  pixels : List UInt8
  width : Int
  height : Int
deriving DecidableEq

/-- The answers of everything outside `main.c` during one run of the program. -/
structure Env where
  /-- Whether `glfwInit()` succeeds. -/
  glfwInit : Bool
  /-- Whether `glfwCreateWindow` gives a window. -/
  glfwCreateWindow : Bool
  /-- The result of `stbi_load` on `./cakew.png`; `none` is the null pointer. -/
  stbi_load : Option Image
  /-- The C library on `shader.vert`. -/
  vertex_file : FileAnswers
  /-- The C library on `shader.frag`. -/
  fragment_file : FileAnswers
  /-- The driver on the vertex shader object. -/
  vertex_gl : DriverAnswers
  /-- The driver on the fragment shader object. -/
  fragment_gl : DriverAnswers
  /-- The driver on the program object. -/
  program_gl : DriverAnswers
  /-- The answer of `glfwWindowShouldClose` at the check before iteration `i`. -/
  should_close : Nat → Bool
  /-- The size stored by `glfwGetWindowSize` at the start of iteration `i`. -/
  window_size : Nat → Int × Int
  /-- The bytes stored in `pixels` by `glReadPixels` in iteration `i`. -/
  framebuffer : Nat → PixelBuffer
  /-- Whether `fopen` of the frame file succeeds in iteration `i`. -/
  frame_fopen_ok : Nat → Bool
  /-- The text of `strerror(errno)` for the frame file of iteration `i`. -/
  frame_strerror : Nat → String
  /-- Whether the compiler contracted `x += dx * dt` and `y += dy * dt` into fused
  multiply-adds. -/
  fp_contract : Bool

/-- The steps of `main` that the claims speak about, in the order they happen. -/
inductive Event where
  /-- Lines 215-223: `glTexImage2D` with the pointer returned by the decoder. -/
  | tex_image (image_pixels : Option Image)
  /-- Lines 227-232: a shader stage came back from `gl_create_and_compile_shader`. -/
  | shader_compiled (shader_type : Nat)
  /-- Line 234: `gl_create_and_link_program` is called. -/
  | link_program
  /-- Line 265: the `for` statement of the render loop is reached. -/
  | enter_render_loop
deriving DecidableEq

/-- Line 151. -/
def VERTEX_FILE_PATH : String := "shader.vert"

/-- Line 152. -/
def FRAGMENT_FILE_PATH : String := "shader.frag"

/-- Lines 17 and 290: the content of `frame_file_path` after
`snprintf(frame_file_path, sizeof(frame_file_path), "./frames/frame-%04d.ppm", i)`. -/
def frame_file_path (i : Int) : String :=
  String.mk (("./frames/frame-" ++ fmt_04d i ++ ".ppm").toList.take (1024 - 1))

/-- The variables of the render loop and the frame files written so far, oldest first. -/
structure LoopState where
  /-- The loop counter `i`: the number of iterations completed. -/
  i : Nat
  body : Body32
  /-- Path and content of every file written by `save_pixels_to_ppm_file`. -/
  frames : List (String × List UInt8)

/-- Lines 266-295: one iteration of the render loop, without the `++i`. -/
def loop_body (env : Env) (s : LoopState) : Except Fatal LoopState :=
  let w := (env.window_size s.i).1
  let h := (env.window_size s.i).2
  let body := tick32 env.fp_contract w h s.body
  let path := frame_file_path s.i
  match save_pixels_to_ppm_file (env.frame_fopen_ok s.i) (env.frame_strerror s.i)
      (env.framebuffer s.i) path with
  | .error e => .error e
  | .ok bytes => .ok { s with body := body, frames := s.frames ++ [(path, bytes)] }

/-- Line 265: `for (int i = 0; i < 100 && !glfwWindowShouldClose(window); ++i)`, unrolled
at most `fuel` times. The result pairs a state with the way the loop ended: the state
when the loop was left, or the state at the start of the iteration that ended the
process. -/
def render_loop (env : Env) : Nat → LoopState → LoopState × Except Fatal Unit
  | 0, s => if s.i < 100 ∧ env.should_close s.i = false then (s, .error .out_of_fuel) else (s, .ok ())
  | fuel + 1, s =>
    if s.i < 100 ∧ env.should_close s.i = false then
      match loop_body env s with
      | .error e => (s, .error e)
      | .ok s1 => render_loop env fuel { s1 with i := s1.i + 1 }
    else (s, .ok ())

/-- A run of `main`: the events in order, the state of the render loop when the run
ended (if the loop was reached) and the ending, `.ok 0` for `return 0`. -/
structure Run where
  trace : List Event
  loop : Option LoopState
  ending : Except Fatal Int

/-- Lines 154-301. -/
def main (env : Env) : Run :=
  if !env.glfwInit then
    ⟨[], none, .error (.aborted "Error: Could not initialize GLFW!\n")⟩
  else if !env.glfwCreateWindow then
    ⟨[], none, .error (.aborted "Error: Could not create GLFW Window!\n")⟩
  else
    let t1 := [Event.tex_image env.stbi_load]
    match gl_create_and_compile_shader env.vertex_file env.vertex_gl
        GL_VERTEX_SHADER VERTEX_FILE_PATH with
    | .error e => ⟨t1, none, .error e⟩
    | .ok vertex_shader =>
      let t2 := t1 ++ [Event.shader_compiled GL_VERTEX_SHADER]
      match gl_create_and_compile_shader env.fragment_file env.fragment_gl
          GL_FRAGMENT_SHADER FRAGMENT_FILE_PATH with
      | .error e => ⟨t2, none, .error e⟩
      | .ok fragment_shader =>
        let t3 := t2 ++ [Event.shader_compiled GL_FRAGMENT_SHADER, Event.link_program]
        match gl_create_and_link_program env.program_gl vertex_shader fragment_shader with
        | .error e => ⟨t3, none, .error e⟩
        | .ok _program =>
          let r := render_loop env 100 { i := 0, body := initial_body32, frames := [] }
          match r.2 with
          | .error e => ⟨t3 ++ [Event.enter_render_loop], some r.1, .error e⟩
          | .ok _ => ⟨t3 ++ [Event.enter_render_loop], some r.1, .ok 0⟩

/-! ### Environments used as instances -/

/-- A shader source of five bytes that every call on it reads without failure. -/
def readable_file : FileAnswers :=
  { fopen_ok := true, contents := [118, 111, 105, 100, 10], fseek_end_fails := false,
    ftell_fails := false, fseek_set_fails := false, calloc_fails := false, fread_limit := 5,
    strerror := "Success" }

/-- A path that cannot be opened. -/
def missing_file : FileAnswers :=
  { readable_file with fopen_ok := false, strerror := "No such file or directory" }

/-- A driver that accepts the object: status `GL_TRUE`, empty log. -/
def accepting_driver : DriverAnswers :=
  { handle := 1, status := 1, info_log := "" }

/-- A driver that rejects the object with a log. -/
def rejecting_driver : DriverAnswers :=
  { handle := 1, status := 0, info_log := "0:1(1): error: syntax error" }

/-- A run in which every call outside `main.c` succeeds, the window keeps its size of
800x600 and is never asked to close, and the frame buffer is black. -/
def healthy_env : Env :=
  { glfwInit := true, glfwCreateWindow := true,
    stbi_load := some { pixels := [255, 255, 255, 255], width := 1, height := 1 },
    vertex_file := readable_file, fragment_file := readable_file,
    vertex_gl := accepting_driver, fragment_gl := accepting_driver,
    program_gl := accepting_driver,
    should_close := fun _ => false, window_size := fun _ => (800, 600),
    framebuffer := fun _ _ => 0, frame_fopen_ok := fun _ => true,
    frame_strerror := fun _ => "Success", fp_contract := false }

/-- The healthy run, except that the image decoder fails and returns the null pointer. -/
def null_image_env : Env := { healthy_env with stbi_load := none }

/-- The healthy run, except that no frame file can be opened (the directory `./frames`
does not exist). -/
def no_frames_dir_env : Env :=
  { healthy_env with frame_fopen_ok := fun _ => false,
                     frame_strerror := fun _ => "No such file or directory" }

/-- The state in which `main` enters the render loop (lines 242-246 and 265). -/
def initial_loop_state : LoopState := { i := 0, body := initial_body32, frames := [] }

/-- The state after one iteration whose frame file could be opened, `++i` included. -/
def next_state (env : Env) (s : LoopState) : LoopState :=
  { i := s.i + 1,
    body := tick32 env.fp_contract (env.window_size s.i).1 (env.window_size s.i).2 s.body,
    frames := s.frames ++ [(frame_file_path s.i,
      cstr_bytes ppm_header ++ payload_bytes (env.framebuffer s.i))] }

/-- The state after `k` such iterations. -/
def after_ticks (env : Env) : Nat → LoopState → LoopState
  | 0, s => s
  | k + 1, s => after_ticks env k (next_state env s)

/-- The frame number read back from a frame path: the decimal value of the characters
at positions 15 to 18. -/
def frame_number (path : String) : Nat :=
  ((path.toList.drop 15).take 4).foldl (fun acc ch => acc * 10 + (ch.toNat - 48)) 0

/-! # Lemmas -/

/-! ### Helper lemmas: the tick, axis by axis -/

theorem tick_r (w h : Int) (b : Body) : (tick w h b).r = b.r := by
  unfold tick advance_y advance_x reflect_y reflect_x
  split_ifs <;> rfl

theorem tick_x_axis (w h : Int) (b : Body) :
    ((tick w h b).x, (tick w h b).dx) = axis_step b.r w (b.x, b.dx) := by
  unfold tick advance_y advance_x reflect_y reflect_x axis_step
  split_ifs <;> rfl

theorem tick_y_axis (w h : Int) (b : Body) :
    ((tick w h b).y, (tick w h b).dy) = axis_step b.r h (b.y, b.dy) := by
  unfold tick advance_y advance_x reflect_y reflect_x axis_step
  split_ifs <;> rfl

theorem iterate_tick_r (w h : Int) (b : Body) (n : Nat) : ((tick w h)^[n] b).r = b.r := by
  induction n with
  | zero => rfl
  | succ n ih => rw [Function.iterate_succ_apply', tick_r, ih]

theorem iterate_tick_x_axis (w h : Int) (b : Body) (n : Nat) :
    (((tick w h)^[n] b).x, ((tick w h)^[n] b).dx) = (axis_step b.r w)^[n] (b.x, b.dx) := by
  induction n with
  | zero => rfl
  | succ n ih =>
    rw [Function.iterate_succ_apply', Function.iterate_succ_apply', tick_x_axis,
      iterate_tick_r, ih]

theorem iterate_tick_y_axis (w h : Int) (b : Body) (n : Nat) :
    (((tick w h)^[n] b).y, ((tick w h)^[n] b).dy) = (axis_step b.r h)^[n] (b.y, b.dy) := by
  induction n with
  | zero => rfl
  | succ n ih =>
    rw [Function.iterate_succ_apply', Function.iterate_succ_apply', tick_y_axis,
      iterate_tick_r, ih]

/-! ### Helper lemmas: one axis -/

theorem axis_step_contact (r W : ℚ) (p : ℚ × ℚ) (hc : p.1 - r ≤ 0 ∨ p.1 + r ≥ W) :
    axis_step r W p = (p.1 - p.2 * dt, -p.2) := by
  unfold axis_step
  simp only [if_pos hc]
  ext
  · simp only; ring
  · rfl

theorem axis_alternates (r W : ℚ) (p : ℚ × ℚ) (N : Nat)
    (hc : ∀ k, k < N → ((axis_step r W)^[k] p).1 - r ≤ 0 ∨ ((axis_step r W)^[k] p).1 + r ≥ W) :
    ((axis_step r W)^[N] p).2 = (-1) ^ N * p.2 := by
  induction N with
  | zero => simp
  | succ N ih =>
    rw [Function.iterate_succ_apply', axis_step_contact r W _ (hc N (Nat.lt_succ_self N))]
    simp only
    rw [ih (fun k hk => hc k (Nat.lt_succ_of_lt hk)), pow_succ]
    ring

/-! ### Helper lemmas: the image writer -/

theorem pixel_index_eq (y x c : Int) (hy : 0 ≤ y ∧ y < 600) (hx : 0 ≤ x ∧ x < 800)
    (hc : 0 ≤ c ∧ c ≤ 2) :
    pixel_index y x c = some ((600 - y - 1) * 800 * 4 + x * 4 + c) := by
  have h1 : int_result (OPENGL_HEIGHT - y) = some (600 - y) := by
    unfold int_result OPENGL_HEIGHT INT_MIN INT_MAX
    rw [if_pos (by omega)]
  have h2 : int_result (600 - y - 1) = some (600 - y - 1) := by
    unfold int_result INT_MIN INT_MAX
    rw [if_pos (by omega)]
  have h3 : int_result ((600 - y - 1) * OPENGL_WIDTH) = some ((600 - y - 1) * 800) := by
    unfold int_result OPENGL_WIDTH INT_MIN INT_MAX
    rw [if_pos (by omega)]
  have h4 : int_result ((600 - y - 1) * 800 * 4) = some ((600 - y - 1) * 800 * 4) := by
    unfold int_result INT_MIN INT_MAX
    rw [if_pos (by omega)]
  have h5 : int_result (x * 4) = some (x * 4) := by
    unfold int_result INT_MIN INT_MAX
    rw [if_pos (by omega)]
  have h6 : int_result ((600 - y - 1) * 800 * 4 + x * 4)
      = some ((600 - y - 1) * 800 * 4 + x * 4) := by
    unfold int_result INT_MIN INT_MAX
    rw [if_pos (by omega)]
  have h7 : int_result ((600 - y - 1) * 800 * 4 + x * 4 + c)
      = some ((600 - y - 1) * 800 * 4 + x * 4 + c) := by
    unfold int_result INT_MIN INT_MAX
    rw [if_pos (by omega)]
  unfold pixel_index
  simp only [h1, h2, h3, h4, h5, h6, h7, Option.bind_eq_bind, Option.some_bind]

theorem pixels_at_eq (pixels : PixelBuffer) (i : Int) (h : 0 ≤ i ∧ i < 1920000) :
    pixels_at pixels i = some (byte_at pixels i.toNat) := by
  have hs : PIXELS_SIZE = 1920000 := by decide
  have h1 : 0 ≤ i ∧ i < (PIXELS_SIZE : Int) := by rw [hs]; omega
  have h2 : i.toNat < PIXELS_SIZE := by rw [hs]; omega
  unfold pixels_at byte_at
  rw [dif_pos h1, dif_pos h2]

theorem put_channel_eq (pixels : PixelBuffer) (y x c : Nat) (hy : y < 600) (hx : x < 800)
    (hc : c ≤ 2) (f : List UInt8) :
    put_channel pixels y x c f = some (f ++ [byte_at pixels ((599 - y) * 3200 + x * 4 + c)]) := by
  unfold put_channel
  rw [pixel_index_eq y x c (by omega) (by omega) (by omega)]
  simp only [Option.bind_eq_bind, Option.some_bind]
  rw [pixels_at_eq pixels _ (by omega)]
  have e : (((600 : Int) - y - 1) * 800 * 4 + x * 4 + c).toNat = (599 - y) * 3200 + x * 4 + c := by
    omega
  simp only [Option.some_bind, e, fputc]
  rfl

theorem put_pixel_eq (pixels : PixelBuffer) (y x : Nat) (hy : y < 600) (hx : x < 800)
    (f : List UInt8) : put_pixel pixels y x f = some (f ++ pixel_bytes pixels y x) := by
  unfold put_pixel
  have h0 := put_channel_eq pixels y x 0 hy hx (by omega) f
  have h1 := put_channel_eq pixels y x 1 hy hx (by omega)
  have h2 := put_channel_eq pixels y x 2 hy hx (by omega)
  simp only [Nat.cast_zero, Nat.cast_one, Nat.cast_ofNat, add_zero] at h0 h1 h2
  simp only [h0, h1, h2, Option.bind_eq_bind, Option.some_bind, pixel_bytes, List.append_assoc,
    List.singleton_append]

/-- A counted loop whose body appends a block to the stream appends the blocks in order. -/
theorem foldlM_range_append {α : Type} (g : Nat → List α)
    (body : List α → Nat → Option (List α)) (n : Nat)
    (hbody : ∀ f i, i < n → body f i = some (f ++ g i)) (f : List α) :
    (List.range n).foldlM body f = some (f ++ (List.range n).flatMap g) := by
  induction n with
  | zero => simp
  | succ n ih =>
    rw [List.range_succ, List.foldlM_append, ih (fun f i hi => hbody f i (Nat.lt_succ_of_lt hi))]
    simp [hbody _ n (Nat.lt_succ_self n), List.flatMap_append]

theorem length_flatMap_range {α : Type} (g : Nat → List α) (k n : Nat)
    (hlen : ∀ i, i < n → (g i).length = k) : ((List.range n).flatMap g).length = n * k := by
  induction n with
  | zero => simp
  | succ n ih =>
    rw [List.range_succ, List.flatMap_append, List.length_append,
      ih (fun i hi => hlen i (Nat.lt_succ_of_lt hi))]
    simp [hlen n (Nat.lt_succ_self n), Nat.succ_mul]

theorem getElem?_flatMap_range {α : Type} (g : Nat → List α) (k n : Nat)
    (hlen : ∀ i, i < n → (g i).length = k) (i j : Nat) (hi : i < n) (hj : j < k) :
    ((List.range n).flatMap g)[i * k + j]? = (g i)[j]? := by
  induction n with
  | zero => omega
  | succ n ih =>
    have hl := length_flatMap_range g k n (fun i hi => hlen i (Nat.lt_succ_of_lt hi))
    rw [List.range_succ, List.flatMap_append]
    by_cases hin : i < n
    · have hlt : i * k + j < ((List.range n).flatMap g).length := by
        rw [hl]
        calc i * k + j < i * k + k := by omega
          _ = (i + 1) * k := by ring
          _ ≤ n * k := Nat.mul_le_mul_right k hin
      rw [List.getElem?_append_left hlt]
      exact ih (fun i hi => hlen i (Nat.lt_succ_of_lt hi)) hin
    · have hieq : i = n := by omega
      subst hieq
      rw [List.getElem?_append_right (by rw [hl]; omega), hl]
      simp

theorem header_bytes :
    cstr_bytes ppm_header = [80, 54, 10, 56, 48, 48, 32, 54, 48, 48, 10, 50, 53, 53, 10] := by
  decide

theorem ppm_read_header (payload : List UInt8) (hlen : payload.length = 1440000) :
    ppm_read (cstr_bytes ppm_header ++ payload) = some ⟨800, 600, 255, payload⟩ := by
  rw [header_bytes]
  have h : 3 * 800 * 600 ≤ payload.length := by omega
  have ht : List.take 1440000 payload = payload := by
    rw [← hlen]; exact List.take_length payload
  simp +decide [ppm_read, ppm_number, ppm_skip_spaces, ppm_digits, ppm_is_space, ppm_is_digit,
    hlen, ht]

theorem put_row_eq (pixels : PixelBuffer) (y : Nat) (hy : y < 600) (f : List UInt8) :
    put_row pixels y f = some (f ++ row_bytes pixels y) := by
  have hw : OPENGL_WIDTH.toNat = 800 := by decide
  unfold put_row row_bytes
  rw [hw]
  exact foldlM_range_append (pixel_bytes pixels y) (fun f x => put_pixel pixels y x f) 800
    (fun f x hx => put_pixel_eq pixels y x hy hx f) f

theorem put_rows_eq (pixels : PixelBuffer) (f : List UInt8) :
    put_rows pixels f = some (f ++ payload_bytes pixels) := by
  have hh : OPENGL_HEIGHT.toNat = 600 := by decide
  unfold put_rows payload_bytes
  rw [hh]
  exact foldlM_range_append (row_bytes pixels) (fun f y => put_row pixels y f) 600
    (fun f y hy => put_row_eq pixels y hy f) f

theorem row_bytes_length (pixels : PixelBuffer) (y : Nat) : (row_bytes pixels y).length = 2400 := by
  unfold row_bytes
  exact length_flatMap_range (pixel_bytes pixels y) 3 800 (fun _ _ => rfl)

theorem payload_bytes_length (pixels : PixelBuffer) : (payload_bytes pixels).length = 1440000 := by
  unfold payload_bytes
  exact length_flatMap_range (row_bytes pixels) 2400 600 (fun y _ => row_bytes_length pixels y)

theorem payload_bytes_getElem? (pixels : PixelBuffer) (y x c : Nat) (hy : y < 600)
    (hx : x < 800) (hc : c < 3) :
    (payload_bytes pixels)[3 * (y * 800 + x) + c]?
      = some (byte_at pixels ((599 - y) * 3200 + x * 4 + c)) := by
  have e : 3 * (y * 800 + x) + c = y * 2400 + (x * 3 + c) := by ring
  rw [e]
  unfold payload_bytes
  rw [getElem?_flatMap_range (row_bytes pixels) 2400 600
    (fun y _ => row_bytes_length pixels y) y (x * 3 + c) hy (by omega)]
  unfold row_bytes
  rw [getElem?_flatMap_range (pixel_bytes pixels y) 3 800 (fun _ _ => rfl) x c hx hc]
  interval_cases c <;> simp [pixel_bytes]

theorem source_index_eq (y x c : Nat) (hy : y < 600) :
    (((600 : Int) - y - 1) * 800 * 4 + x * 4 + c).toNat = (599 - y) * 3200 + x * 4 + c := by
  omega

theorem save_pixels_eq (pixels : PixelBuffer) (strerror file_path : String) :
    save_pixels_to_ppm_file true strerror pixels file_path
      = .ok (cstr_bytes ppm_header ++ payload_bytes pixels) := by
  unfold save_pixels_to_ppm_file
  rw [put_rows_eq]
  rfl

theorem infix_of_append (pre mid post : String) : mid.data <:+: (pre ++ mid ++ post).data := by
  rw [String.data_append, String.data_append]
  exact List.infix_append _ _ _

theorem file_as_cstr_cases (a : FileAnswers) (filepath : String) :
    (file_as_cstr a filepath = .ok (a.contents ++ [0])
      ∧ a.fopen_ok = true ∧ a.fseek_end_fails = false ∧ a.ftell_fails = false
      ∧ a.fseek_set_fails = false ∧ a.calloc_fails = false
      ∧ ¬ (min a.contents.length a.fread_limit < a.contents.length))
    ∨ ((∃ pre post, file_as_cstr a filepath = .error (.aborted (pre ++ filepath ++ post)))
      ∧ (a.fopen_ok = false ∨ a.fseek_end_fails = true ∨ a.ftell_fails = true
        ∨ a.fseek_set_fails = true ∨ a.calloc_fails = true
        ∨ min a.contents.length a.fread_limit < a.contents.length)) := by
  unfold file_as_cstr fseek_code ftell_value
  cases h1 : a.fopen_ok
  · right
    exact ⟨⟨"Could not open file `", "`: " ++ a.strerror ++ "\n", by simp [String.append_assoc]⟩,
      Or.inl rfl⟩
  cases h2 : a.fseek_end_fails
  swap
  · right
    exact ⟨⟨"Could find the end of file ", ": " ++ a.strerror ++ "\n",
      by simp [String.append_assoc]⟩, Or.inr (Or.inl rfl)⟩
  cases h3 : a.ftell_fails
  swap
  · right
    exact ⟨⟨"Could get the end of file ", ": " ++ a.strerror ++ "\n",
      by simp [String.append_assoc]⟩, Or.inr (Or.inr (Or.inl rfl))⟩
  cases h4 : a.fseek_set_fails
  swap
  · right
    exact ⟨⟨"Could not find the beginning of file ", ": " ++ a.strerror ++ "\n",
      by simp [String.append_assoc]⟩, by simp⟩
  cases h5 : a.calloc_fails
  swap
  · right
    exact ⟨⟨"Could not allocate memory for file ", ": " ++ a.strerror ++ "\n",
      by simp [String.append_assoc]⟩, by simp⟩
  by_cases h6 : min a.contents.length a.fread_limit < a.contents.length
  · right
    refine ⟨⟨"Could not read file ", ": " ++ a.strerror ++ "\n", ?_⟩, by simp [h6]⟩
    have : min a.contents.length a.fread_limit ≠ a.contents.length := by omega
    simp [this, String.append_assoc]
  · left
    have : min a.contents.length a.fread_limit = a.contents.length := by
      have := Nat.min_le_left a.contents.length a.fread_limit
      omega
    simp [this, h6]

theorem compile_of_source (file : FileAnswers) (gl : DriverAnswers) (shader_type : Nat)
    (file_path : String) (source : List UInt8) (hs : file_as_cstr file file_path = .ok source) :
    gl_create_and_compile_shader file gl shader_type file_path
      = if gl.status ≠ GL_TRUE then
          (if gl.log_length < 2 then .error .undefined
          else
            .error (.aborted (gl_shader_type_as_cstr shader_type ++ " failed compiled:\n"
              ++ (file_path ++ ":" ++ fmt_prec_s (gl.log_length - 2) (String.mk (gl.message.toList.drop 2))))))
        else .ok gl.handle := by
  unfold gl_create_and_compile_shader
  rw [hs]

theorem compile_of_no_source (file : FileAnswers) (gl : DriverAnswers) (shader_type : Nat)
    (file_path : String) (e : Fatal) (hs : file_as_cstr file file_path = .error e) :
    gl_create_and_compile_shader file gl shader_type file_path = .error e := by
  unfold gl_create_and_compile_shader
  rw [hs]

theorem main_stops_without_shaders (env : Env)
    (h : (¬ ∃ handle, gl_create_and_compile_shader env.vertex_file env.vertex_gl
            GL_VERTEX_SHADER VERTEX_FILE_PATH = .ok handle)
      ∨ (¬ ∃ handle, gl_create_and_compile_shader env.fragment_file env.fragment_gl
            GL_FRAGMENT_SHADER FRAGMENT_FILE_PATH = .ok handle)) :
    Event.link_program ∉ (main env).trace ∧ Event.enter_render_loop ∉ (main env).trace
      ∧ (main env).loop = none ∧ ∃ e, (main env).ending = .error e := by
  unfold main
  cases env.glfwInit
  · simp
  cases env.glfwCreateWindow
  · simp
  cases hv : gl_create_and_compile_shader env.vertex_file env.vertex_gl
      GL_VERTEX_SHADER VERTEX_FILE_PATH with
  | error e => simp
  | ok vs =>
    cases hf : gl_create_and_compile_shader env.fragment_file env.fragment_gl
        GL_FRAGMENT_SHADER FRAGMENT_FILE_PATH with
    | error e => simp
    | ok fs =>
      exfalso
      rcases h with h | h
      · exact h ⟨vs, hv⟩
      · exact h ⟨fs, hf⟩

theorem loop_body_ok (env : Env) (s : LoopState) (h : env.frame_fopen_ok s.i = true) :
    loop_body env s = .ok { s with
      body := tick32 env.fp_contract (env.window_size s.i).1 (env.window_size s.i).2 s.body,
      frames := s.frames ++ [(frame_file_path s.i,
        cstr_bytes ppm_header ++ payload_bytes (env.framebuffer s.i))] } := by
  simp only [loop_body, h, save_pixels_eq]

theorem loop_body_fail (env : Env) (s : LoopState) (h : env.frame_fopen_ok s.i = false) :
    loop_body env s = .error (.exited 1
      ("Could not save to file `" ++ frame_file_path s.i ++ "`: " ++ env.frame_strerror s.i)) := by
  simp only [loop_body, save_pixels_to_ppm_file, h]
  rfl

theorem render_loop_run (env : Env) (k : Nat) :
    ∀ (fuel : Nat) (s : LoopState), k ≤ fuel → s.i + k ≤ 100 →
      (∀ j, j < k → env.should_close (s.i + j) = false) →
      (∀ j, j < k → env.frame_fopen_ok (s.i + j) = true) →
      (s.i + k < 100 → env.should_close (s.i + k) = true) →
      render_loop env fuel s = (after_ticks env k s, .ok ()) := by
  induction k with
  | zero =>
    intro fuel s _ _ _ _ hstop
    have hc : ¬ (s.i < 100 ∧ env.should_close s.i = false) := by
      rintro ⟨h1, h2⟩
      have := hstop (by omega)
      rw [Nat.add_zero, h2] at this
      cases this
    cases fuel with
    | zero => unfold render_loop; rw [if_neg hc]; rfl
    | succ fuel => unfold render_loop; rw [if_neg hc]; rfl
  | succ k ih =>
    intro fuel s hfuel hle hopen hfiles hstop
    cases fuel with
    | zero => omega
    | succ fuel =>
      have hc : s.i < 100 ∧ env.should_close s.i = false :=
        ⟨by omega, by have := hopen 0 (by omega); rwa [Nat.add_zero] at this⟩
      have hf : env.frame_fopen_ok s.i = true := by
        have := hfiles 0 (by omega); rwa [Nat.add_zero] at this
      unfold render_loop
      rw [if_pos hc, loop_body_ok env s hf]
      show render_loop env fuel (next_state env s) = _
      have hi : (next_state env s).i = s.i + 1 := rfl
      rw [ih fuel (next_state env s) (by omega) (by rw [hi]; omega)
        (fun j hj => by rw [hi]; have := hopen (j + 1) (by omega); rwa [← Nat.add_assoc, Nat.add_right_comm] at this)
        (fun j hj => by rw [hi]; have := hfiles (j + 1) (by omega); rwa [← Nat.add_assoc, Nat.add_right_comm] at this)
        (fun hlt => by
          rw [hi] at hlt ⊢
          have := hstop (by omega)
          rwa [← Nat.add_assoc, Nat.add_right_comm] at this)]
      rfl

theorem after_ticks_i (env : Env) (k : Nat) : ∀ s, (after_ticks env k s).i = s.i + k := by
  induction k with
  | zero => intro s; rfl
  | succ k ih =>
    intro s
    show (after_ticks env k (next_state env s)).i = s.i + (k + 1)
    rw [ih]
    show s.i + 1 + k = s.i + (k + 1)
    omega

theorem after_ticks_frames (env : Env) (k : Nat) : ∀ s, (after_ticks env k s).frames
    = s.frames ++ (List.range k).map (fun j => (frame_file_path ((s.i + j : Nat) : Int),
        cstr_bytes ppm_header ++ payload_bytes (env.framebuffer (s.i + j)))) := by
  induction k with
  | zero => intro s; simp [after_ticks]
  | succ k ih =>
    intro s
    show (after_ticks env k (next_state env s)).frames = _
    rw [ih, List.range_succ_eq_map]
    simp only [next_state, List.map_cons, List.map_map, List.append_assoc, List.singleton_append,
      Nat.add_zero]
    congr 2
    apply List.map_congr_left
    intro j _
    simp only [Function.comp, Nat.succ_eq_add_one]
    rw [Nat.add_assoc, Nat.add_comm 1 j]

theorem after_ticks_body (env : Env) (w h : Int) (hw : ∀ i, env.window_size i = (w, h))
    (k : Nat) : ∀ s, (after_ticks env k s).body = (tick32 env.fp_contract w h)^[k] s.body := by
  induction k with
  | zero => intro s; rfl
  | succ k ih =>
    intro s
    show (after_ticks env k (next_state env s)).body = _
    rw [ih, Function.iterate_succ_apply]
    simp only [next_state, hw]

set_option maxRecDepth 100000 in
theorem frame_path_digits : ∀ i : Nat, i < 100 →
    frame_file_path (i : Int) = "./frames/frame-" ++ String.mk [Nat.digitChar (i / 1000),
      Nat.digitChar (i / 100 % 10), Nat.digitChar (i / 10 % 10), Nat.digitChar (i % 10)]
      ++ ".ppm" := by
  decide

set_option maxRecDepth 100000 in
theorem frame_number_path : ∀ i : Nat, i < 100 → frame_number (frame_file_path (i : Int)) = i := by
  decide

theorem frame_paths_nodup (k : Nat) (hk : k ≤ 100) :
    ((List.range k).map (fun i : Nat => frame_file_path (i : Int))).Nodup := by
  refine List.Nodup.map_on ?_ (List.nodup_range k)
  intro i hi j hj he
  have hi2 : i < 100 := by have := List.mem_range.mp hi; omega
  have hj2 : j < 100 := by have := List.mem_range.mp hj; omega
  rw [← frame_number_path i hi2, ← frame_number_path j hj2, he]

theorem main_of_startup (env : Env) (h1 : env.glfwInit = true) (h2 : env.glfwCreateWindow = true)
    (vs fs program : Nat)
    (hv : gl_create_and_compile_shader env.vertex_file env.vertex_gl
      GL_VERTEX_SHADER VERTEX_FILE_PATH = .ok vs)
    (hf : gl_create_and_compile_shader env.fragment_file env.fragment_gl
      GL_FRAGMENT_SHADER FRAGMENT_FILE_PATH = .ok fs)
    (hl : gl_create_and_link_program env.program_gl vs fs = .ok program) :
    (main env).trace = [Event.tex_image env.stbi_load, Event.shader_compiled GL_VERTEX_SHADER,
      Event.shader_compiled GL_FRAGMENT_SHADER, Event.link_program, Event.enter_render_loop]
    ∧ (main env).loop = some (render_loop env 100 initial_loop_state).1
    ∧ (main env).ending = (match (render_loop env 100 initial_loop_state).2 with
        | .error e => .error e
        | .ok _ => .ok 0) := by
  unfold main
  simp only [h1, h2, hv, hf, hl, Bool.not_true, Bool.false_eq_true, if_false]
  unfold initial_loop_state
  split <;> simp_all

/-! ### Helper lemmas: binary32 -/

theorem F32.neg_neg (a : F32) : F32.neg (F32.neg a) = a := by
  cases a <;> simp [F32.neg]

theorem value_eq_scaled (s : Bool) (m : Nat) (e e0 : Int) (h : e0 ≤ e) :
    (F32.finite s m e).value = (scaled s m e e0 : ℚ) * (2 : ℚ) ^ e0 := by
  have h2 : (2 : ℚ) ≠ 0 := by norm_num
  have hk : (((e - e0).toNat : Nat) : Int) = e - e0 := Int.toNat_of_nonneg (by omega)
  have hp : (2 : ℚ) ^ e = (2 : ℚ) ^ (e - e0).toNat * (2 : ℚ) ^ e0 := by
    rw [← zpow_natCast, ← zpow_add₀ h2, hk]
    congr 1
    omega
  unfold F32.value scaled
  cases s
  · simp only [Bool.false_eq_true, if_false, one_mul]
    rw [hp]
    push_cast
    ring
  · simp only [if_true]
    rw [hp]
    push_cast
    ring

theorem lt_value (a b : F32) (ha : a.is_finite = true) (hb : b.is_finite = true)
    (h : F32.lt a b = true) : a.value < b.value := by
  cases a with
  | finite s1 m1 e1 =>
    cases b with
    | finite s2 m2 e2 =>
      have hlt : scaled s1 m1 e1 (min e1 e2) < scaled s2 m2 e2 (min e1 e2) := by
        simp only [F32.lt, F32.le, Bool.not_eq_true', decide_eq_false_iff_not, not_le] at h
        have e : min e2 e1 = min e1 e2 := min_comm e2 e1
        rw [e] at h
        exact h
      rw [value_eq_scaled s1 m1 e1 (min e1 e2) (min_le_left _ _),
        value_eq_scaled s2 m2 e2 (min e1 e2) (min_le_right _ _)]
      have hpos : (0 : ℚ) < (2 : ℚ) ^ (min e1 e2) := zpow_pos (by norm_num) _
      exact mul_lt_mul_of_pos_right (by exact_mod_cast hlt) hpos
    | inf t => cases hb
    | nan => cases hb
  | inf t => cases ha
  | nan => cases ha

theorem tick32_r (c : Bool) (w h : Int) (b : Body32) : (tick32 c w h b).r = b.r := by
  unfold tick32 advance_y32 advance_x32 reflect_y32 reflect_x32
  split_ifs <;> rfl

theorem tick32_x_axis (c : Bool) (w h : Int) (b : Body32) :
    ((tick32 c w h b).x, (tick32 c w h b).dx) = axis_step32 c b.r w (b.x, b.dx) := by
  unfold tick32 advance_y32 advance_x32 reflect_y32 reflect_x32 axis_step32
  split_ifs <;> rfl

theorem tick32_y_axis (c : Bool) (w h : Int) (b : Body32) :
    ((tick32 c w h b).y, (tick32 c w h b).dy) = axis_step32 c b.r h (b.y, b.dy) := by
  unfold tick32 advance_y32 advance_x32 reflect_y32 reflect_x32 axis_step32
  split_ifs <;> rfl

theorem iterate_tick32_r (c : Bool) (w h : Int) (b : Body32) (n : Nat) :
    ((tick32 c w h)^[n] b).r = b.r := by
  induction n with
  | zero => rfl
  | succ n ih => rw [Function.iterate_succ_apply', tick32_r, ih]

theorem iterate_tick32_x_axis (c : Bool) (w h : Int) (b : Body32) (n : Nat) :
    (((tick32 c w h)^[n] b).x, ((tick32 c w h)^[n] b).dx)
      = (axis_step32 c b.r w)^[n] (b.x, b.dx) := by
  induction n with
  | zero => rfl
  | succ n ih =>
    rw [Function.iterate_succ_apply', Function.iterate_succ_apply', tick32_x_axis,
      iterate_tick32_r, ih]

theorem iterate_tick32_y_axis (c : Bool) (w h : Int) (b : Body32) (n : Nat) :
    (((tick32 c w h)^[n] b).y, ((tick32 c w h)^[n] b).dy)
      = (axis_step32 c b.r h)^[n] (b.y, b.dy) := by
  induction n with
  | zero => rfl
  | succ n ih =>
    rw [Function.iterate_succ_apply', Function.iterate_succ_apply', tick32_y_axis,
      iterate_tick32_r, ih]

theorem axis_step32_contact (c : Bool) (r : F32) (W : Int) (p : F32 × F32)
    (hc : (F32.le (F32.sub p.1 r) (F32.of_int 0) || F32.ge (F32.add p.1 r) (F32.of_int W))
      = true) :
    axis_step32 c r W p = (mul_add32 c (F32.neg p.2) dt32 p.1, F32.neg p.2) := by
  unfold axis_step32
  simp only [hc, if_true]

/-- A position in contact whose next position is in contact too and whose second step
comes back to it: the run has period two. -/
theorem axis32_period (c : Bool) (r : F32) (W : Int) (p : F32 × F32)
    (hc : (F32.le (F32.sub p.1 r) (F32.of_int 0) || F32.ge (F32.add p.1 r) (F32.of_int W))
      = true)
    (hc1 : (F32.le (F32.sub (axis_step32 c r W p).1 r) (F32.of_int 0)
      || F32.ge (F32.add (axis_step32 c r W p).1 r) (F32.of_int W)) = true)
    (hback : (axis_step32 c r W (axis_step32 c r W p)).1 = p.1) (n : Nat) :
    (axis_step32 c r W)^[2 * n] p = p
      ∧ (axis_step32 c r W)^[2 * n + 1] p = axis_step32 c r W p := by
  have h2 : axis_step32 c r W (axis_step32 c r W p) = p := by
    have e1 := axis_step32_contact c r W p hc
    have e2 := axis_step32_contact c r W (axis_step32 c r W p) hc1
    have hv : (axis_step32 c r W (axis_step32 c r W p)).2 = p.2 := by
      rw [e2]
      show F32.neg (axis_step32 c r W p).2 = p.2
      rw [e1]
      exact F32.neg_neg p.2
    exact Prod.ext hback hv
  induction n with
  | zero => exact ⟨rfl, rfl⟩
  | succ n ih =>
    have e : 2 * (n + 1) = (2 * n + 1) + 1 := by ring
    have h3 : (axis_step32 c r W)^[2 * (n + 1)] p = p := by
      rw [e, Function.iterate_succ_apply', ih.2, h2]
    refine ⟨h3, ?_⟩
    rw [Function.iterate_succ_apply', h3]

theorem value_of_int_47 : (F32.of_int 47).value = 47 := by
  have h : F32.of_int 47 = .finite false 12320768 (-18) := by decide!
  rw [h]
  norm_num [F32.value]

set_option maxRecDepth 100000 in
theorem program_run_checks (c : Bool) : ∀ n : Nat, n ≤ 100 →
    (((tick32 c 800 600)^[n] initial_body32).x.is_finite
      && ((tick32 c 800 600)^[n] initial_body32).y.is_finite
      && F32.lt (F32.of_int 47) ((tick32 c 800 600)^[n] initial_body32).x
      && F32.lt ((tick32 c 800 600)^[n] initial_body32).x (F32.of_int 753)
      && F32.lt (F32.of_int 47) ((tick32 c 800 600)^[n] initial_body32).y
      && F32.lt ((tick32 c 800 600)^[n] initial_body32).y (F32.of_int 553)) = true
    ∧ ¬ (contact_x32 800 ((tick32 c 800 600)^[n] initial_body32)
        ∧ contact_x32 800 ((tick32 c 800 600)^[n + 1] initial_body32))
    ∧ ¬ (contact_y32 600 ((tick32 c 800 600)^[n] initial_body32)
        ∧ contact_y32 600 ((tick32 c 800 600)^[n + 1] initial_body32)) := by
  cases c <;> decide!

theorem value_of_int_753 : (F32.of_int 753).value = 753 := by
  have h : F32.of_int 753 = .finite false 12337152 (-14) := by decide!
  rw [h]
  norm_num [F32.value]

theorem value_of_int_553 : (F32.of_int 553).value = 553 := by
  have h : F32.of_int 553 = .finite false 9060352 (-14) := by decide!
  rw [h]
  norm_num [F32.value]

theorem tick32_dx_contact (c : Bool) (w h : Int) (b : Body32) (hc : contact_x32 w b) :
    (tick32 c w h b).dx = F32.neg b.dx
      ∧ (tick32 c w h b).x = mul_add32 c (F32.neg b.dx) dt32 b.x := by
  have e := tick32_x_axis c w h b
  rw [axis_step32_contact c b.r w (b.x, b.dx) hc] at e
  exact ⟨congrArg Prod.snd e, congrArg Prod.fst e⟩

theorem tick32_dy_contact (c : Bool) (w h : Int) (b : Body32) (hc : contact_y32 h b) :
    (tick32 c w h b).dy = F32.neg b.dy
      ∧ (tick32 c w h b).y = mul_add32 c (F32.neg b.dy) dt32 b.y := by
  have e := tick32_y_axis c w h b
  rw [axis_step32_contact c b.r h (b.y, b.dy) hc] at e
  exact ⟨congrArg Prod.snd e, congrArg Prod.fst e⟩

/-- The x axis of a run that is in contact, in contact again after one tick and back at
its position after two: the state of the axis at every even and every odd tick. -/
theorem tick32_x_period (c : Bool) (w h : Int) (b : Body32) (hc : contact_x32 w b)
    (hc1 : contact_x32 w (tick32 c w h b))
    (hback : (tick32 c w h (tick32 c w h b)).x = b.x) (n : Nat) :
    (((tick32 c w h)^[2 * n] b).x = b.x ∧ ((tick32 c w h)^[2 * n] b).dx = b.dx)
    ∧ (((tick32 c w h)^[2 * n + 1] b).x = (tick32 c w h b).x
        ∧ ((tick32 c w h)^[2 * n + 1] b).dx = (tick32 c w h b).dx) := by
  have e1 := tick32_x_axis c w h b
  have e2 := tick32_x_axis c w h (tick32 c w h b)
  rw [tick32_r, e1] at e2
  have hx1 : (axis_step32 c b.r w (b.x, b.dx)).1 = (tick32 c w h b).x :=
    (congrArg Prod.fst e1).symm
  have hc1' : (F32.le (F32.sub (axis_step32 c b.r w (b.x, b.dx)).1 b.r) (F32.of_int 0)
      || F32.ge (F32.add (axis_step32 c b.r w (b.x, b.dx)).1 b.r) (F32.of_int w)) = true := by
    rw [hx1]
    have := hc1
    unfold contact_x32 at this
    rwa [tick32_r] at this
  have hback' : (axis_step32 c b.r w (axis_step32 c b.r w (b.x, b.dx))).1 = (b.x, b.dx).1 := by
    rw [← e2]
    exact hback
  have hp := axis32_period c b.r w (b.x, b.dx) hc hc1' hback' n
  rw [← iterate_tick32_x_axis c w h b (2 * n), ← iterate_tick32_x_axis c w h b (2 * n + 1),
    ← e1] at hp
  exact ⟨⟨congrArg Prod.fst hp.1, congrArg Prod.snd hp.1⟩,
    ⟨congrArg Prod.fst hp.2, congrArg Prod.snd hp.2⟩⟩

theorem tick32_y_period (c : Bool) (w h : Int) (b : Body32) (hc : contact_y32 h b)
    (hc1 : contact_y32 h (tick32 c w h b))
    (hback : (tick32 c w h (tick32 c w h b)).y = b.y) (n : Nat) :
    (((tick32 c w h)^[2 * n] b).y = b.y ∧ ((tick32 c w h)^[2 * n] b).dy = b.dy)
    ∧ (((tick32 c w h)^[2 * n + 1] b).y = (tick32 c w h b).y
        ∧ ((tick32 c w h)^[2 * n + 1] b).dy = (tick32 c w h b).dy) := by
  have e1 := tick32_y_axis c w h b
  have e2 := tick32_y_axis c w h (tick32 c w h b)
  rw [tick32_r, e1] at e2
  have hy1 : (axis_step32 c b.r h (b.y, b.dy)).1 = (tick32 c w h b).y :=
    (congrArg Prod.fst e1).symm
  have hc1' : (F32.le (F32.sub (axis_step32 c b.r h (b.y, b.dy)).1 b.r) (F32.of_int 0)
      || F32.ge (F32.add (axis_step32 c b.r h (b.y, b.dy)).1 b.r) (F32.of_int h)) = true := by
    rw [hy1]
    have := hc1
    unfold contact_y32 at this
    rwa [tick32_r] at this
  have hback' : (axis_step32 c b.r h (axis_step32 c b.r h (b.y, b.dy))).1 = (b.y, b.dy).1 := by
    rw [← e2]
    exact hback
  have hp := axis32_period c b.r h (b.y, b.dy) hc hc1' hback' n
  rw [← iterate_tick32_y_axis c w h b (2 * n), ← iterate_tick32_y_axis c w h b (2 * n + 1),
    ← e1] at hp
  exact ⟨⟨congrArg Prod.fst hp.1, congrArg Prod.snd hp.1⟩,
    ⟨congrArg Prod.fst hp.2, congrArg Prod.snd hp.2⟩⟩

theorem contact_x32_congr (w : Int) (s t : Body32) (hx : s.x = t.x) (hr : s.r = t.r) :
    contact_x32 w s ↔ contact_x32 w t := by
  unfold contact_x32
  rw [hx, hr]

theorem contact_y32_congr (h : Int) (s t : Body32) (hy : s.y = t.y) (hr : s.r = t.r) :
    contact_y32 h s ↔ contact_y32 h t := by
  unfold contact_y32
  rw [hy, hr]

theorem inside_x32_congr (w : Int) (s t : Body32) (hx : s.x = t.x) (hr : s.r = t.r) :
    inside_x32 w s ↔ inside_x32 w t := by
  unfold inside_x32
  rw [hx, hr]

theorem inside_y32_congr (h : Int) (s t : Body32) (hy : s.y = t.y) (hr : s.r = t.r) :
    inside_y32 h s ↔ inside_y32 h t := by
  unfold inside_y32
  rw [hy, hr]

/-- The x axis of such a run, tick by tick. -/
theorem tick32_x_alternates (c : Bool) (w h : Int) (b : Body32) (hc : contact_x32 w b)
    (hc1 : contact_x32 w (tick32 c w h b))
    (hback : (tick32 c w h (tick32 c w h b)).x = b.x) (n : Nat) :
    contact_x32 w ((tick32 c w h)^[n] b)
      ∧ ((tick32 c w h)^[n + 1] b).dx = F32.neg ((tick32 c w h)^[n] b).dx
      ∧ ((tick32 c w h)^[2 * n] b).x = b.x
      ∧ ((tick32 c w h)^[2 * n + 1] b).x = (tick32 c w h b).x
      ∧ (inside_x32 w ((tick32 c w h)^[n] b) →
          inside_x32 w b ∨ inside_x32 w (tick32 c w h b)) := by
  have hcn : contact_x32 w ((tick32 c w h)^[n] b)
      ∧ (inside_x32 w ((tick32 c w h)^[n] b) →
          inside_x32 w b ∨ inside_x32 w (tick32 c w h b)) := by
    rcases Nat.even_or_odd' n with ⟨k, hk | hk⟩
    · have hp := (tick32_x_period c w h b hc hc1 hback k).1
      rw [hk]
      exact ⟨(contact_x32_congr w _ b hp.1 (iterate_tick32_r c w h b _)).mpr hc,
        fun hin => Or.inl ((inside_x32_congr w _ b hp.1 (iterate_tick32_r c w h b _)).mp hin)⟩
    · have hp := (tick32_x_period c w h b hc hc1 hback k).2
      rw [hk]
      have hr : ((tick32 c w h)^[2 * k + 1] b).r = (tick32 c w h b).r := by
        rw [iterate_tick32_r, tick32_r]
      exact ⟨(contact_x32_congr w _ _ hp.1 hr).mpr hc1,
        fun hin => Or.inr ((inside_x32_congr w _ _ hp.1 hr).mp hin)⟩
  refine ⟨hcn.1, ?_, (tick32_x_period c w h b hc hc1 hback n).1.1,
    (tick32_x_period c w h b hc hc1 hback n).2.1, hcn.2⟩
  rw [Function.iterate_succ_apply']
  exact (tick32_dx_contact c w h _ hcn.1).1

theorem tick32_y_alternates (c : Bool) (w h : Int) (b : Body32) (hc : contact_y32 h b)
    (hc1 : contact_y32 h (tick32 c w h b))
    (hback : (tick32 c w h (tick32 c w h b)).y = b.y) (n : Nat) :
    contact_y32 h ((tick32 c w h)^[n] b)
      ∧ ((tick32 c w h)^[n + 1] b).dy = F32.neg ((tick32 c w h)^[n] b).dy
      ∧ ((tick32 c w h)^[2 * n] b).y = b.y
      ∧ ((tick32 c w h)^[2 * n + 1] b).y = (tick32 c w h b).y
      ∧ (inside_y32 h ((tick32 c w h)^[n] b) →
          inside_y32 h b ∨ inside_y32 h (tick32 c w h b)) := by
  have hcn : contact_y32 h ((tick32 c w h)^[n] b)
      ∧ (inside_y32 h ((tick32 c w h)^[n] b) →
          inside_y32 h b ∨ inside_y32 h (tick32 c w h b)) := by
    rcases Nat.even_or_odd' n with ⟨k, hk | hk⟩
    · have hp := (tick32_y_period c w h b hc hc1 hback k).1
      rw [hk]
      exact ⟨(contact_y32_congr h _ b hp.1 (iterate_tick32_r c w h b _)).mpr hc,
        fun hin => Or.inl ((inside_y32_congr h _ b hp.1 (iterate_tick32_r c w h b _)).mp hin)⟩
    · have hp := (tick32_y_period c w h b hc hc1 hback k).2
      rw [hk]
      have hr : ((tick32 c w h)^[2 * k + 1] b).r = (tick32 c w h b).r := by
        rw [iterate_tick32_r, tick32_r]
      exact ⟨(contact_y32_congr h _ _ hp.1 hr).mpr hc1,
        fun hin => Or.inr ((inside_y32_congr h _ _ hp.1 hr).mp hin)⟩
  refine ⟨hcn.1, ?_, (tick32_y_period c w h b hc hc1 hback n).1.1,
    (tick32_y_period c w h b hc hc1 hback n).2.1, hcn.2⟩
  rw [Function.iterate_succ_apply']
  exact (tick32_dy_contact c w h _ hcn.1).1

theorem pushed_body_not_inside (c : Bool) :
    ¬ ∃ n, inside_x32 800 ((tick32 c 800 600)^[n] pushed_body32) := by
  rintro ⟨n, hn⟩
  have hc : contact_x32 800 pushed_body32 := by decide!
  have hc1 : contact_x32 800 (tick32 c 800 600 pushed_body32) := by cases c <;> decide!
  have hback : (tick32 c 800 600 (tick32 c 800 600 pushed_body32)).x = pushed_body32.x := by
    cases c <;> decide!
  have h0 : pushed_body32.x = .finite false 14745600 (-14) := by decide!
  have hr : pushed_body32.r = .finite false 13107200 (-18) := by decide!
  have h1 : (tick32 c 800 600 pushed_body32).x = .finite false 14690987 (-14) := by
    cases c <;> decide!
  have hr1 : (tick32 c 800 600 pushed_body32).r = .finite false 13107200 (-18) := by
    rw [tick32_r]; exact hr
  rcases (tick32_x_alternates c 800 600 pushed_body32 hc hc1 hback n).2.2.2.2 hn with h | h
  · unfold inside_x32 at h
    rw [h0, hr] at h
    norm_num [F32.value] at h
  · unfold inside_x32 at h
    rw [h1, hr1] at h
    norm_num [F32.value] at h

theorem tick32_dx_iterate (c : Bool) (w h : Int) (b : Body32) (N : Nat)
    (hc : ∀ k, k < N → contact_x32 w ((tick32 c w h)^[k] b)) :
    ((tick32 c w h)^[N] b).dx = F32.neg^[N] b.dx := by
  induction N with
  | zero => rfl
  | succ N ih =>
    rw [Function.iterate_succ_apply', Function.iterate_succ_apply',
      (tick32_dx_contact c w h _ (hc N (Nat.lt_succ_self N))).1,
      ih (fun k hk => hc k (Nat.lt_succ_of_lt hk))]

theorem tick32_dy_iterate (c : Bool) (w h : Int) (b : Body32) (N : Nat)
    (hc : ∀ k, k < N → contact_y32 h ((tick32 c w h)^[k] b)) :
    ((tick32 c w h)^[N] b).dy = F32.neg^[N] b.dy := by
  induction N with
  | zero => rfl
  | succ N ih =>
    rw [Function.iterate_succ_apply', Function.iterate_succ_apply',
      (tick32_dy_contact c w h _ (hc N (Nat.lt_succ_self N))).1,
      ih (fun k hk => hc k (Nat.lt_succ_of_lt hk))]

/-! # The claims -/

/-! ## C1: the animation update -/

/-- C1: one tick negates `dx` exactly when `x - r <= 0` or `x + r >= w`, negates `dy`
exactly when `y - r <= 0` or `y + r >= h`, then moves the position by the new velocity
times `dt = 1/60`; the axes are decided independently, so a corner hit negates both
components; from (300,300), radius 50, velocity (200,200) in 800x600 nothing reflects
and the position becomes (300 + 200/60, 300 + 200/60), about (303.33, 303.33). -/
theorem tick_update (b : Body) (w h : Int) :
    (tick w h b).dx = (if b.x - b.r ≤ 0 ∨ b.x + b.r ≥ (w : ℚ) then -b.dx else b.dx)
    ∧ (tick w h b).dy = (if b.y - b.r ≤ 0 ∨ b.y + b.r ≥ (h : ℚ) then -b.dy else b.dy)
    ∧ (tick w h b).x = b.x + (tick w h b).dx * (1 / 60)
    ∧ (tick w h b).y = b.y + (tick w h b).dy * (1 / 60)
    ∧ ((b.x - b.r ≤ 0 ∨ b.x + b.r ≥ (w : ℚ)) → (b.y - b.r ≤ 0 ∨ b.y + b.r ≥ (h : ℚ)) →
        (tick w h b).dx = -b.dx ∧ (tick w h b).dy = -b.dy)
    ∧ tick 800 600 { x := 300, y := 300, dx := 200, dy := 200, r := 50 }
        = { x := 300 + 200 / 60, y := 300 + 200 / 60, dx := 200, dy := 200, r := 50 }
    ∧ ((30333 : ℚ) / 100 < 300 + 200 / 60 ∧ (300 : ℚ) + 200 / 60 < 30334 / 100) := by
  have hx := tick_x_axis w h b
  have hy := tick_y_axis w h b
  simp only [axis_step, Prod.mk.injEq] at hx hy
  refine ⟨hx.2, hy.2, ?_, ?_, ?_, ?_, ?_⟩
  · rw [hx.1, hx.2]; rfl
  · rw [hy.1, hy.2]; rfl
  · intro cx cy
    rw [hx.2, hy.2, if_pos cx, if_pos cy]
    exact ⟨rfl, rfl⟩
  · norm_num [tick, advance_x, advance_y, reflect_x, reflect_y, dt]
  · norm_num

/-- C1 at a corner: radius 50 at (760, 560) in 800x600 touches the right and the bottom
edge in the same tick and both velocity components are negated. -/
theorem tick_update_witness :
    (tick 800 600 { x := 760, y := 560, dx := 200, dy := 200, r := 50 }).dx = -200
    ∧ (tick 800 600 { x := 760, y := 560, dx := 200, dy := 200, r := 50 }).dy = -200 :=
  (tick_update { x := 760, y := 560, dx := 200, dy := 200, r := 50 } 800 600).2.2.2.2.1
    (by norm_num) (by norm_num)

/-! ## C2: the image file -/

/-- C2: for every content of the pixel buffer, when the output file can be opened
`save_pixels_to_ppm_file` writes the header bytes `P6\n800 600\n255\n` followed by
exactly 800*600*3 payload bytes, and the payload byte at offset `3*(y*800 + x) + c` is
`pixels[(600 - y - 1)*800*4 + x*4 + c]`; the first (top-left) pixel of the file is the
first pixel of row 599, the last row of the buffer, and the last row of the file is row
0 of the buffer; every
payload byte is a copy of a buffer byte whose index is not 3 modulo 4 (no alpha byte);
a PPM reader applied to the file gives an 800x600 image with maximum value 255 whose
red, green and blue samples are those of every source pixel, rows in reverse order. -/
theorem save_pixels_to_ppm_file_output (pixels : PixelBuffer) (strerror file_path : String) :
    ∃ payload : List UInt8,
      save_pixels_to_ppm_file true strerror pixels file_path
        = .ok (cstr_bytes "P6\n800 600\n255\n" ++ payload)
      ∧ cstr_bytes "P6\n800 600\n255\n"
          = [80, 54, 10, 56, 48, 48, 32, 54, 48, 48, 10, 50, 53, 53, 10]
      ∧ payload.length = 800 * 600 * 3
      ∧ (∀ y x c : Nat, y < 600 → x < 800 → c < 3 →
          ∃ v, payload[3 * (y * 800 + x) + c]? = some v
            ∧ pixels_at pixels (((600 : Int) - y - 1) * 800 * 4 + x * 4 + c) = some v)
      ∧ (∀ c : Nat, c < 3 →
          ∃ v, payload[c]? = some v ∧ pixels_at pixels ((599 : Int) * 800 * 4 + c) = some v)
      ∧ (∀ x c : Nat, x < 800 → c < 3 →
          ∃ v, payload[3 * (599 * 800 + x) + c]? = some v
            ∧ pixels_at pixels ((x : Int) * 4 + c) = some v)
      ∧ (∀ k : Nat, k < payload.length →
          ∃ (i : Int) (v : UInt8), i % 4 = (k % 3 : Nat) ∧ i % 4 ≠ 3
            ∧ payload[k]? = some v ∧ pixels_at pixels i = some v)
      ∧ ∃ img : Ppm,
          ppm_read (cstr_bytes "P6\n800 600\n255\n" ++ payload) = some img
          ∧ img.width = 800 ∧ img.height = 600 ∧ img.maxval = 255
          ∧ ∀ row col c : Nat, row < 600 → col < 800 → c < 3 →
              ∃ v, img.sample (600 - row - 1) col c = some v
                ∧ pixels_at pixels (((row : Int) * 800 + col) * 4 + c) = some v := by
  have hhead : "P6\n800 600\n255\n" = ppm_header := by decide
  have key : ∀ y x c : Nat, y < 600 → x < 800 → c < 3 →
      ∃ v, (payload_bytes pixels)[3 * (y * 800 + x) + c]? = some v
        ∧ pixels_at pixels (((600 : Int) - y - 1) * 800 * 4 + x * 4 + c) = some v := by
    intro y x c hy hx hc
    refine ⟨_, payload_bytes_getElem? pixels y x c hy hx hc, ?_⟩
    rw [pixels_at_eq pixels _ (by omega), source_index_eq y x c hy]
  refine ⟨payload_bytes pixels, ?_, by decide, payload_bytes_length pixels, key, ?_, ?_, ?_, ?_⟩
  · rw [hhead]; exact save_pixels_eq pixels strerror file_path
  · intro c hc
    obtain ⟨v, h1, h2⟩ := key 0 0 c (by omega) (by omega) hc
    refine ⟨v, ?_, ?_⟩
    · simpa using h1
    · have e : ((600 : Int) - (0 : Nat) - 1) * 800 * 4 + ((0 : Nat) : Int) * 4 + c
          = (599 : Int) * 800 * 4 + c := by omega
      rw [← e]; exact h2
  · intro x c hx hc
    obtain ⟨v, h1, h2⟩ := key 599 x c (by omega) hx hc
    refine ⟨v, h1, ?_⟩
    have e : ((600 : Int) - (599 : Nat) - 1) * 800 * 4 + (x : Int) * 4 + c = (x : Int) * 4 + c := by
      omega
    rw [← e]; exact h2
  · intro k hk
    rw [payload_bytes_length] at hk
    obtain ⟨v, h1, h2⟩ := key (k / 2400) (k / 3 % 800) (k % 3) (by omega) (by omega) (by omega)
    have ek : 3 * (k / 2400 * 800 + k / 3 % 800) + k % 3 = k := by omega
    rw [ek] at h1
    refine ⟨_, v, ?_, ?_, h1, h2⟩ <;> omega
  · refine ⟨⟨800, 600, 255, payload_bytes pixels⟩, ?_, rfl, rfl, rfl, ?_⟩
    · rw [hhead]; exact ppm_read_header (payload_bytes pixels) (payload_bytes_length pixels)
    · intro row col c hr hcol hc
      obtain ⟨v, h1, h2⟩ := key (600 - row - 1) col c (by omega) hcol hc
      refine ⟨v, by simp only [Ppm.sample]; exact h1, ?_⟩
      have e : ((600 : Int) - ((600 - row - 1 : Nat) : Int) - 1) * 800 * 4 + (col : Int) * 4 + c
          = ((row : Int) * 800 + col) * 4 + c := by omega
      rw [← e]; exact h2

/-- C2 on an instance: for the buffer holding 7 everywhere the file has 15 header bytes
and 1440000 payload bytes, and the byte after the header is 7. -/
theorem save_pixels_to_ppm_file_output_witness :
    ((save_pixels_to_ppm_file true "" (fun _ => 7) "./frames/frame-0000.ppm").toOption.getD
        []).length = 15 + 800 * 600 * 3
    ∧ ((save_pixels_to_ppm_file true "" (fun _ => 7) "./frames/frame-0000.ppm").toOption.getD
        [])[15]? = some 7 := by
  obtain ⟨payload, h1, hb, h2, h3, _⟩ :=
    save_pixels_to_ppm_file_output (fun _ => 7) "" "./frames/frame-0000.ppm"
  obtain ⟨v, hv1, hv2⟩ := h3 0 0 0 (by decide) (by decide) (by decide)
  rw [pixels_at_eq _ _ (by norm_num)] at hv2
  have hv : v = 7 := by
    have h7 : ∀ i, byte_at (fun _ => (7 : UInt8)) i = 7 ∨ ¬ i < PIXELS_SIZE := by
      intro i
      by_cases hi : i < PIXELS_SIZE
      · left; unfold byte_at; rw [dif_pos hi]
      · right; exact hi
    rcases h7 (((600 : Int) - ((0 : Nat) : Int) - 1) * 800 * 4 + ((0 : Nat) : Int) * 4
        + ((0 : Nat) : Int)).toNat with h | h
    · rw [h] at hv2
      exact (Option.some.inj hv2).symm
    · exact absurd (by decide) h
  have hlen : (cstr_bytes "P6\n800 600\n255\n").length = 15 := by rw [hb]; rfl
  rw [h1]
  constructor
  · simp only [Except.toOption, Option.getD_some, List.length_append, hlen, h2]
  · simp only [Except.toOption, Option.getD_some]
    rw [List.getElem?_append_right (by rw [hlen]), hlen, ← hv]
    simpa using hv1

/-! ## C3: the body stays at the viewport -/

/-- C3 fails as stated: in the binary32 arithmetic of the program, a body of radius 1 at
`x = 1 + 2^-23` with velocity -200 in a fixed 800x600 viewport starts strictly inside
(`r < x < w - r`) with a step smaller than the free width, and the boundary condition
of line 271 holds at the start of tick 1 and again at the start of tick 2 (and `x <= r`
holds exactly there), whether or not the compiler contracts `x += dx * dt`: rounding
brings the body back to `x = r` after every reflection. -/
theorem rounding_keeps_contact :
    (edge_body32.r.value < edge_body32.x.value
      ∧ edge_body32.x.value < ((800 : Int) : ℚ) - edge_body32.r.value)
    ∧ |edge_body32.dx.value| * dt32.value < ((800 : Int) : ℚ) - 2 * edge_body32.r.value
    ∧ |edge_body32.dx.value| * (1 / 60) < ((800 : Int) : ℚ) - 2 * edge_body32.r.value
    ∧ (contact_x32 800 ((tick32 false 800 600)^[1] edge_body32)
        ∧ contact_x32 800 ((tick32 false 800 600)^[2] edge_body32))
    ∧ (contact_x32 800 ((tick32 true 800 600)^[1] edge_body32)
        ∧ contact_x32 800 ((tick32 true 800 600)^[2] edge_body32))
    ∧ (((tick32 false 800 600)^[1] edge_body32).x.value - edge_body32.r.value ≤ 0
        ∧ ((tick32 false 800 600)^[2] edge_body32).x.value - edge_body32.r.value ≤ 0)
    ∧ (((tick32 true 800 600)^[1] edge_body32).x.value - edge_body32.r.value ≤ 0
        ∧ ((tick32 true 800 600)^[2] edge_body32).x.value - edge_body32.r.value ≤ 0) := by
  have hx : edge_body32.x = .finite false 8388609 (-23) := rfl
  have hr : edge_body32.r = .finite false 8388608 (-23) := by decide!
  have hdx : edge_body32.dx = .finite true 13107200 (-16) := by decide!
  have hdt : dt32 = .finite false 8947849 (-29) := by decide!
  have h1 : ((tick32 false 800 600)^[1] edge_body32).x = .finite true 9786710 (-22) := by
    decide!
  have h2 : ((tick32 false 800 600)^[2] edge_body32).x = .finite false 8388608 (-23) := by
    decide!
  have k1 : ((tick32 true 800 600)^[1] edge_body32).x = .finite true 9786710 (-22) := by
    decide!
  have k2 : ((tick32 true 800 600)^[2] edge_body32).x = .finite false 8388608 (-23) := by
    decide!
  rw [h1, h2, k1, k2, hx, hr, hdx, hdt]
  refine ⟨?_, ?_, ?_, ⟨by decide!, by decide!⟩, ⟨by decide!, by decide!⟩, ?_, ?_⟩
  · norm_num [F32.value]
  · norm_num [F32.value, abs_of_neg]
  · norm_num [F32.value, abs_of_neg]
  · norm_num [F32.value]
  · norm_num [F32.value]

/-- C3 as amended: in the run of the program (binary32 arithmetic, with or without
contraction of `x += dx * dt`, viewport fixed at 800x600, start (300,300), radius 50,
velocity (200,200), `dt = 1.0f / 60.0f`) every state reached in the 100 ticks has finite
coordinates with `r - |dx|/60 < x < w - r + |dx|/60` and `r - |dy|/60 < y < h - r + |dy|/60`
for `r = 50`, `|dx| = |dy| = 200`, and the boundary condition of an axis never holds at
the start of two consecutive ticks; these states are the states of the body in the
render loop of `main` when the window keeps that size. -/
theorem program_run_never_penetrates (c : Bool) (n : Nat) (hn : n ≤ 100) :
    (initial_body32.x.value = 300 ∧ initial_body32.y.value = 300
      ∧ initial_body32.dx.value = 200 ∧ initial_body32.dy.value = 200
      ∧ initial_body32.r.value = 50)
    ∧ (((tick32 c 800 600)^[n] initial_body32).x.is_finite = true
      ∧ ((tick32 c 800 600)^[n] initial_body32).y.is_finite = true)
    ∧ ((50 : ℚ) - 200 * (1 / 60) < ((tick32 c 800 600)^[n] initial_body32).x.value
      ∧ ((tick32 c 800 600)^[n] initial_body32).x.value < 800 - 50 + 200 * (1 / 60))
    ∧ ((50 : ℚ) - 200 * (1 / 60) < ((tick32 c 800 600)^[n] initial_body32).y.value
      ∧ ((tick32 c 800 600)^[n] initial_body32).y.value < 600 - 50 + 200 * (1 / 60))
    ∧ ¬ (contact_x32 800 ((tick32 c 800 600)^[n] initial_body32)
        ∧ contact_x32 800 ((tick32 c 800 600)^[n + 1] initial_body32))
    ∧ ¬ (contact_y32 600 ((tick32 c 800 600)^[n] initial_body32)
        ∧ contact_y32 600 ((tick32 c 800 600)^[n + 1] initial_body32))
    ∧ (∀ env : Env, env.fp_contract = c → (∀ i, env.window_size i = (800, 600)) →
        (∀ j, j < n → env.should_close j = false) → (n < 100 → env.should_close n = true) →
        (∀ j, j < n → env.frame_fopen_ok j = true) →
        (render_loop env 100 initial_loop_state).1.body
          = (tick32 c 800 600)^[n] initial_body32) := by
  have hchk := program_run_checks c n hn
  simp only [Bool.and_eq_true] at hchk
  obtain ⟨⟨⟨⟨⟨⟨hfx, hfy⟩, hx1⟩, hx2⟩, hy1⟩, hy2⟩, hcx, hcy⟩ := hchk
  have f47 : (F32.of_int 47).is_finite = true := by decide!
  have f753 : (F32.of_int 753).is_finite = true := by decide!
  have f553 : (F32.of_int 553).is_finite = true := by decide!
  have bx1 := lt_value _ _ f47 hfx hx1
  have bx2 := lt_value _ _ hfx f753 hx2
  have by1 := lt_value _ _ f47 hfy hy1
  have by2 := lt_value _ _ hfy f553 hy2
  rw [value_of_int_47] at bx1 by1
  rw [value_of_int_753] at bx2
  rw [value_of_int_553] at by2
  have hi : initial_body32 = Body32.mk (.finite false 9830400 (-15))
      (.finite false 9830400 (-15)) (.finite false 13107200 (-16))
      (.finite false 13107200 (-16)) (.finite false 13107200 (-18)) := by decide!
  refine ⟨?_, ⟨hfx, hfy⟩, ⟨?_, ?_⟩, ⟨?_, ?_⟩, hcx, hcy, ?_⟩
  · rw [hi]
    norm_num [F32.value]
  · linarith
  · linarith
  · linarith
  · linarith
  · intro env hcontract hw hopen hclose hfiles
    have hi0 : initial_loop_state.i = 0 := rfl
    rw [render_loop_run env n 100 initial_loop_state hn (by rw [hi0]; omega)
      (fun j hj => by rw [hi0, Nat.zero_add]; exact hopen j hj)
      (fun j hj => by rw [hi0, Nat.zero_add]; exact hfiles j hj)
      (fun hlt => by rw [hi0, Nat.zero_add] at hlt ⊢; exact hclose hlt)]
    show (after_ticks env n initial_loop_state).body = _
    rw [after_ticks_body env 800 600 hw n initial_loop_state, hcontract]
    rfl

/-- C3 as amended, at the tick in which the body first touches the top edge: after 75
ticks (no contraction) `y` is within the bounds and the boundary condition of the y axis
does not hold at ticks 75 and 76 both. -/
theorem program_run_never_penetrates_witness :
    ((50 : ℚ) - 200 * (1 / 60) < ((tick32 false 800 600)^[75] initial_body32).y.value
      ∧ ((tick32 false 800 600)^[75] initial_body32).y.value < 600 - 50 + 200 * (1 / 60))
    ∧ ¬ (contact_y32 600 ((tick32 false 800 600)^[75] initial_body32)
        ∧ contact_y32 600 ((tick32 false 800 600)^[75 + 1] initial_body32)) :=
  have h := program_run_never_penetrates false 75 (by decide)
  ⟨h.2.2.2.1, h.2.2.2.2.2.1⟩

/-! ## C4: a body out of bounds -/

/-- C4 fails as stated: in the binary32 arithmetic of the program, with or without
contraction of `x += dx * dt`, the body of radius 50 at x = 900 with velocity 200 in a
fixed 800x600 viewport is out of bounds on the right (`x + r = 950 >= 800`, `w > 2r`)
and no number of further ticks brings the circle strictly inside on that axis. -/
theorem out_of_bounds_never_recovers :
    pushed_body32.x.value + pushed_body32.r.value ≥ ((800 : Int) : ℚ)
    ∧ ((800 : Int) : ℚ) > 2 * pushed_body32.r.value
    ∧ contact_x32 800 pushed_body32
    ∧ (¬ ∃ n, inside_x32 800 ((tick32 false 800 600)^[n] pushed_body32))
    ∧ (¬ ∃ n, inside_x32 800 ((tick32 true 800 600)^[n] pushed_body32)) := by
  have h0 : pushed_body32.x = .finite false 14745600 (-14) := by decide!
  have hr : pushed_body32.r = .finite false 13107200 (-18) := by decide!
  refine ⟨?_, ?_, by decide!, pushed_body_not_inside false, pushed_body_not_inside true⟩
  · rw [h0, hr]
    norm_num [F32.value]
  · rw [hr]
    norm_num [F32.value]

/-- C4 as amended: in the binary32 arithmetic of the program, when the boundary
condition of an axis holds at the start of a tick and the viewport stays fixed, the tick
applies no clamping: it negates the velocity component and adds the rounded step,
`x' = x + (-dx) * dt`, leaving `r` unchanged. If the circle is strictly inside at `x'`,
one further tick has brought it inside. If instead the condition holds again at `x'` and
the second tick returns the position to `x`, then the condition holds at the start of
every tick, the component is negated every tick, the position is `x` after every even
and `x'` after every odd number of ticks, and the circle is strictly inside after some
number of ticks only if it is so at `x` or at `x'`. The same for `y` against `h`. -/
theorem out_of_bounds_outcome (c : Bool) (w h : Int) (b : Body32) :
    (contact_x32 w b →
      (tick32 c w h b).dx = F32.neg b.dx
      ∧ (tick32 c w h b).x = mul_add32 c (F32.neg b.dx) dt32 b.x
      ∧ (tick32 c w h b).r = b.r
      ∧ (inside_x32 w (tick32 c w h b) → ∃ n, inside_x32 w ((tick32 c w h)^[n] b))
      ∧ (contact_x32 w (tick32 c w h b) → (tick32 c w h (tick32 c w h b)).x = b.x →
          ∀ n, contact_x32 w ((tick32 c w h)^[n] b)
            ∧ ((tick32 c w h)^[n + 1] b).dx = F32.neg ((tick32 c w h)^[n] b).dx
            ∧ ((tick32 c w h)^[2 * n] b).x = b.x
            ∧ ((tick32 c w h)^[2 * n + 1] b).x = (tick32 c w h b).x
            ∧ (inside_x32 w ((tick32 c w h)^[n] b) →
                inside_x32 w b ∨ inside_x32 w (tick32 c w h b))))
    ∧ (contact_y32 h b →
      (tick32 c w h b).dy = F32.neg b.dy
      ∧ (tick32 c w h b).y = mul_add32 c (F32.neg b.dy) dt32 b.y
      ∧ (tick32 c w h b).r = b.r
      ∧ (inside_y32 h (tick32 c w h b) → ∃ n, inside_y32 h ((tick32 c w h)^[n] b))
      ∧ (contact_y32 h (tick32 c w h b) → (tick32 c w h (tick32 c w h b)).y = b.y →
          ∀ n, contact_y32 h ((tick32 c w h)^[n] b)
            ∧ ((tick32 c w h)^[n + 1] b).dy = F32.neg ((tick32 c w h)^[n] b).dy
            ∧ ((tick32 c w h)^[2 * n] b).y = b.y
            ∧ ((tick32 c w h)^[2 * n + 1] b).y = (tick32 c w h b).y
            ∧ (inside_y32 h ((tick32 c w h)^[n] b) →
                inside_y32 h b ∨ inside_y32 h (tick32 c w h b)))) := by
  constructor
  · intro hc
    refine ⟨(tick32_dx_contact c w h b hc).1, (tick32_dx_contact c w h b hc).2,
      tick32_r c w h b, fun hin => ⟨1, hin⟩, ?_⟩
    intro hc1 hback n
    exact tick32_x_alternates c w h b hc hc1 hback n
  · intro hc
    refine ⟨(tick32_dy_contact c w h b hc).1, (tick32_dy_contact c w h b hc).2,
      tick32_r c w h b, fun hin => ⟨1, hin⟩, ?_⟩
    intro hc1 hback n
    exact tick32_y_alternates c w h b hc hc1 hback n

/-- C4 as amended, on a state of the program's own run: at the start of tick 97 the body
is at `x = 10212693 * 2^-14` (about 623.33331); with the window then 670 wide the
boundary condition holds, the tick moves the body to 620.0 where it holds again, the
next tick returns it, and so after 6 ticks the body is back at its position, the
condition still holds after 3 ticks and the circle is not strictly inside then. -/
theorem out_of_bounds_outcome_witness :
    body97 = (tick32 false 800 600)^[97] initial_body32
    ∧ (tick32 false 670 600 body97).x = mul_add32 false (F32.neg body97.dx) dt32 body97.x
    ∧ (tick32 false 670 600 body97).x = F32.of_int 620
    ∧ contact_x32 670 ((tick32 false 670 600)^[3] body97)
    ∧ ((tick32 false 670 600)^[2 * 3] body97).x = body97.x
    ∧ ¬ inside_x32 670 ((tick32 false 670 600)^[3] body97) :=
  have h := (out_of_bounds_outcome false 670 600 body97).1 (by decide!)
  have k := h.2.2.2.2 (by decide!) (by decide!) 3
  have h0 : body97.x = .finite false 10212693 (-14) := rfl
  have hr : body97.r = .finite false 13107200 (-18) := by decide!
  have h1 : (tick32 false 670 600 body97).x = .finite false 10158080 (-14) := by decide!
  have hr1 : (tick32 false 670 600 body97).r = .finite false 13107200 (-18) := by decide!
  have n0 : ¬ inside_x32 670 body97 := by
    unfold inside_x32
    rw [h0, hr]
    norm_num [F32.value]
  have n1 : ¬ inside_x32 670 (tick32 false 670 600 body97) := by
    unfold inside_x32
    rw [h1, hr1]
    norm_num [F32.value]
  ⟨by decide!, h.2.1, by decide!, k.1, k.2.2.1, fun hin => (k.2.2.2.2 hin).elim n0 n1⟩

/-! ## C5: reflection -/

/-- C5: in every tick in which the boundary condition of an axis holds (one edge or both
at once), the velocity component of that axis is negated exactly once: the new value is
the negation of the old one, the magnitude is unchanged and the sign is the opposite;
the radius is unchanged by every tick; if the condition holds at the start of `N`
consecutive ticks with an unchanged viewport, the component after them is `(-1)^N` times
its starting value; at x = 760, radius 50, width 800, dx = +200 the condition holds
(`x + r = 810 >= 800`), `dx` becomes -200 and `x` decreases. Proved with the arithmetic
taken exactly and, in the last two parts, in the binary32 arithmetic of the program,
where the negation is exact. -/
theorem reflection_negates_once (w h : Int) (b : Body) (N : Nat) :
    (contact_x w b →
      (tick w h b).dx = -b.dx ∧ |(tick w h b).dx| = |b.dx|
      ∧ SignType.sign (tick w h b).dx = -SignType.sign b.dx
      ∧ (0 < b.dx → (tick w h b).dx < 0) ∧ (b.dx < 0 → 0 < (tick w h b).dx))
    ∧ (contact_y h b →
      (tick w h b).dy = -b.dy ∧ |(tick w h b).dy| = |b.dy|
      ∧ SignType.sign (tick w h b).dy = -SignType.sign b.dy
      ∧ (0 < b.dy → (tick w h b).dy < 0) ∧ (b.dy < 0 → 0 < (tick w h b).dy))
    ∧ ((b.x - b.r ≤ 0 ∧ b.x + b.r ≥ (w : ℚ)) → (tick w h b).dx = -b.dx)
    ∧ ((b.y - b.r ≤ 0 ∧ b.y + b.r ≥ (h : ℚ)) → (tick w h b).dy = -b.dy)
    ∧ (tick w h b).r = b.r
    ∧ ((tick w h)^[N] b).r = b.r
    ∧ ((∀ k, k < N → contact_x w ((tick w h)^[k] b)) →
        ((tick w h)^[N] b).dx = (-1) ^ N * b.dx)
    ∧ ((∀ k, k < N → contact_y h ((tick w h)^[k] b)) →
        ((tick w h)^[N] b).dy = (-1) ^ N * b.dy)
    ∧ (∀ (y dy : ℚ) (h0 : Int),
        (760 : ℚ) + 50 = 810 ∧ (810 : ℚ) ≥ ((800 : Int) : ℚ)
        ∧ contact_x 800 { x := 760, y := y, dx := 200, dy := dy, r := 50 }
        ∧ (tick 800 h0 { x := 760, y := y, dx := 200, dy := dy, r := 50 }).dx = -200
        ∧ (tick 800 h0 { x := 760, y := y, dx := 200, dy := dy, r := 50 }).x < 760)
    ∧ (∀ (c : Bool) (b32 : Body32),
        (contact_x32 w b32 → (tick32 c w h b32).dx = F32.neg b32.dx)
        ∧ (contact_y32 h b32 → (tick32 c w h b32).dy = F32.neg b32.dy)
        ∧ (tick32 c w h b32).r = b32.r
        ∧ ((tick32 c w h)^[N] b32).r = b32.r
        ∧ ((∀ k, k < N → contact_x32 w ((tick32 c w h)^[k] b32)) →
            ((tick32 c w h)^[N] b32).dx = F32.neg^[N] b32.dx)
        ∧ ((∀ k, k < N → contact_y32 h ((tick32 c w h)^[k] b32)) →
            ((tick32 c w h)^[N] b32).dy = F32.neg^[N] b32.dy))
    ∧ (∀ (c : Bool) (y dy : F32) (h0 : Int),
        contact_x32 800 (Body32.mk (F32.of_int 760) y (F32.of_int 200) dy (F32.of_int 50))
        ∧ (tick32 c 800 h0
            (Body32.mk (F32.of_int 760) y (F32.of_int 200) dy (F32.of_int 50))).dx
            = F32.of_int (-200)
        ∧ F32.lt (tick32 c 800 h0
            (Body32.mk (F32.of_int 760) y (F32.of_int 200) dy (F32.of_int 50))).x
            (F32.of_int 760) = true) := by
  have hx : ∀ (w h : Int) (b : Body), contact_x w b → (tick w h b).dx = -b.dx := by
    intro w h b hc
    have e1 := tick_x_axis w h b
    rw [axis_step_contact b.r w (b.x, b.dx) hc] at e1
    exact congrArg Prod.snd e1
  have hy : ∀ (w h : Int) (b : Body), contact_y h b → (tick w h b).dy = -b.dy := by
    intro w h b hc
    have e1 := tick_y_axis w h b
    rw [axis_step_contact b.r h (b.y, b.dy) hc] at e1
    exact congrArg Prod.snd e1
  refine ⟨?_, ?_, ?_, ?_, tick_r w h b, iterate_tick_r w h b N, ?_, ?_, ?_, ?_, ?_⟩
  · intro hc
    rw [hx w h b hc]
    exact ⟨rfl, abs_neg _, Left.sign_neg _, fun hp => by linarith, fun hn => by linarith⟩
  · intro hc
    rw [hy w h b hc]
    exact ⟨rfl, abs_neg _, Left.sign_neg _, fun hp => by linarith, fun hn => by linarith⟩
  · intro hc
    exact hx w h b (Or.inl hc.1)
  · intro hc
    exact hy w h b (Or.inl hc.1)
  · intro hc
    have e := iterate_tick_x_axis w h b N
    have ha := axis_alternates b.r w (b.x, b.dx) N (by
      intro k hk
      have hk2 := hc k hk
      unfold contact_x at hk2
      rw [iterate_tick_r] at hk2
      rw [← iterate_tick_x_axis w h b k]
      exact hk2)
    rw [← e] at ha
    exact ha
  · intro hc
    have e := iterate_tick_y_axis w h b N
    have ha := axis_alternates b.r h (b.y, b.dy) N (by
      intro k hk
      have hk2 := hc k hk
      unfold contact_y at hk2
      rw [iterate_tick_r] at hk2
      rw [← iterate_tick_y_axis w h b k]
      exact hk2)
    rw [← e] at ha
    exact ha
  · intro y dy h0
    have hc : contact_x 800 { x := 760, y := y, dx := 200, dy := dy, r := 50 } := by
      norm_num [contact_x]
    have e1 := tick_x_axis 800 h0 { x := 760, y := y, dx := 200, dy := dy, r := 50 }
    have e2 := axis_step_contact 50 ((800 : Int) : ℚ) (760, 200) hc
    have hx1 : (tick 800 h0 { x := 760, y := y, dx := 200, dy := dy, r := 50 }).x
        = 760 - 200 * dt := congrArg Prod.fst (e1.trans e2)
    refine ⟨by norm_num, by norm_num, hc, congrArg Prod.snd (e1.trans e2), ?_⟩
    rw [hx1]
    norm_num [dt]
  · intro c b32
    exact ⟨fun hc => (tick32_dx_contact c w h b32 hc).1,
      fun hc => (tick32_dy_contact c w h b32 hc).1, tick32_r c w h b32,
      iterate_tick32_r c w h b32 N, tick32_dx_iterate c w h b32 N,
      tick32_dy_iterate c w h b32 N⟩
  · intro c y dy h0
    have hc : contact_x32 800
        (Body32.mk (F32.of_int 760) y (F32.of_int 200) dy (F32.of_int 50)) := by
      show (F32.le (F32.sub (F32.of_int 760) (F32.of_int 50)) (F32.of_int 0)
        || F32.ge (F32.add (F32.of_int 760) (F32.of_int 50)) (F32.of_int 800)) = true
      decide!
    have hd := tick32_dx_contact c 800 h0 _ hc
    refine ⟨hc, ?_, ?_⟩
    · rw [hd.1]
      show F32.neg (F32.of_int 200) = F32.of_int (-200)
      decide!
    · rw [hd.2]
      show F32.lt (mul_add32 c (F32.neg (F32.of_int 200)) dt32 (F32.of_int 760))
        (F32.of_int 760) = true
      cases c <;> decide!

/-- C5 on an instance: radius 50 at x = 900 in 800x600 is in contact at the start of two
consecutive ticks and the velocity component comes back to `(-1)^2` times its value. -/
theorem reflection_negates_once_witness :
    ((tick 800 600)^[2] outside_body).dx = (-1) ^ 2 * outside_body.dx :=
  (reflection_negates_once 800 600 outside_body 2).2.2.2.2.2.2.1 (by
    intro k hk
    interval_cases k
    · norm_num [contact_x, outside_body]
    · norm_num [contact_x, outside_body, tick, advance_x, advance_y, reflect_x, reflect_y, dt])

/-! ## C6: the render loop -/

/-- C6 fails as stated: with the should-close signal never raised but no frame file
that can be opened, the run ends with `exit(1)` inside iteration 0, after no complete
tick and without a frame written. -/
theorem capture_failure_ends_run_early :
    (∀ i, no_frames_dir_env.should_close i = false)
    ∧ (render_loop no_frames_dir_env 100 initial_loop_state).1.i = 0
    ∧ (render_loop no_frames_dir_env 100 initial_loop_state).1.frames = []
    ∧ (render_loop no_frames_dir_env 100 initial_loop_state).2 = .error (.exited 1
        "Could not save to file `./frames/frame-0000.ppm`: No such file or directory")
    ∧ (main no_frames_dir_env).ending = .error (.exited 1
        "Could not save to file `./frames/frame-0000.ppm`: No such file or directory") := by
  have hr : render_loop no_frames_dir_env 100 initial_loop_state
      = (initial_loop_state, .error (.exited 1
        "Could not save to file `./frames/frame-0000.ppm`: No such file or directory")) := by
    have hc : initial_loop_state.i < 100
        ∧ no_frames_dir_env.should_close initial_loop_state.i = false := ⟨by decide, rfl⟩
    show render_loop no_frames_dir_env (99 + 1) initial_loop_state = _
    unfold render_loop
    rw [if_pos hc, loop_body_fail no_frames_dir_env initial_loop_state rfl]
    have hp : "Could not save to file `" ++ frame_file_path initial_loop_state.i ++ "`: "
        ++ no_frames_dir_env.frame_strerror initial_loop_state.i
        = "Could not save to file `./frames/frame-0000.ppm`: No such file or directory" := by
      decide
    simp only [hp]
  have hm := main_of_startup no_frames_dir_env rfl rfl 1 1 1 (by decide) (by decide) (by decide)
  refine ⟨fun _ => rfl, ?_, ?_, ?_, ?_⟩
  · rw [hr]; rfl
  · rw [hr]; rfl
  · rw [hr]
  · rw [hm.2.2, hr]

/-- C6 as amended: when every frame file can be opened, the render loop performs
exactly 100 ticks if the should-close signal is not raised at any of its checks, and
exactly `k < 100` ticks if the signal is first observed raised at the check before tick
`k`; tick `i` writes exactly one frame, to `./frames/frame-NNNN.ppm` with `NNNN` the
number `i` in decimal padded with zeros to four digits, so the paths written are those of
0, 1, ..., k-1 in this order, pairwise distinct, and a full run writes
`frame-0000.ppm` through `frame-0099.ppm`. -/
theorem render_loop_ticks (env : Env) (k : Nat) (hk : k ≤ 100)
    (hopen : ∀ j, j < k → env.should_close j = false)
    (hclose : k < 100 → env.should_close k = true)
    (hfiles : ∀ j, j < k → env.frame_fopen_ok j = true) :
    (render_loop env 100 initial_loop_state).2 = .ok ()
    ∧ (render_loop env 100 initial_loop_state).1.i = k
    ∧ (render_loop env 100 initial_loop_state).1.frames.length = k
    ∧ (render_loop env 100 initial_loop_state).1.frames.map Prod.fst
        = (List.range k).map (fun i : Nat => frame_file_path (i : Int))
    ∧ (∀ i, i < k → ∃ content,
        (render_loop env 100 initial_loop_state).1.frames[i]? = some (frame_file_path (i : Int), content)
        ∧ save_pixels_to_ppm_file true (env.frame_strerror i) (env.framebuffer i)
            (frame_file_path (i : Int)) = .ok content)
    ∧ ((render_loop env 100 initial_loop_state).1.frames.map Prod.fst).Nodup
    ∧ (∀ i : Nat, i < 100 →
        frame_file_path (i : Int) = "./frames/frame-" ++ String.mk [Nat.digitChar (i / 1000),
          Nat.digitChar (i / 100 % 10), Nat.digitChar (i / 10 % 10), Nat.digitChar (i % 10)]
          ++ ".ppm")
    ∧ (frame_file_path 0 = "./frames/frame-0000.ppm" ∧ frame_file_path 99 = "./frames/frame-0099.ppm")
    ∧ ((main env).loop = none
        ∨ ((main env).loop = some (render_loop env 100 initial_loop_state).1
            ∧ (main env).ending = .ok 0)) := by
  have hi0 : initial_loop_state.i = 0 := rfl
  have hr := render_loop_run env k 100 initial_loop_state hk (by rw [hi0]; omega)
    (fun j hj => by rw [hi0, Nat.zero_add]; exact hopen j hj)
    (fun j hj => by rw [hi0, Nat.zero_add]; exact hfiles j hj)
    (fun hlt => by rw [hi0, Nat.zero_add] at hlt ⊢; exact hclose hlt)
  have hfr := after_ticks_frames env k initial_loop_state
  have hfr2 : (after_ticks env k initial_loop_state).frames
      = (List.range k).map (fun j : Nat => (frame_file_path (j : Int),
          cstr_bytes ppm_header ++ payload_bytes (env.framebuffer j))) := by
    rw [hfr]
    simp [initial_loop_state]
  have hpaths : (after_ticks env k initial_loop_state).frames.map Prod.fst
      = (List.range k).map (fun i : Nat => frame_file_path (i : Int)) := by
    rw [hfr2, List.map_map]
    rfl
  rw [hr]
  refine ⟨rfl, ?_, ?_, hpaths, ?_, ?_, frame_path_digits, by decide, ?_⟩
  · show (after_ticks env k initial_loop_state).i = k
    rw [after_ticks_i, hi0, Nat.zero_add]
  · show (after_ticks env k initial_loop_state).frames.length = k
    rw [hfr2, List.length_map, List.length_range]
  · intro i hi
    refine ⟨cstr_bytes ppm_header ++ payload_bytes (env.framebuffer i), ?_, save_pixels_eq _ _ _⟩
    show (after_ticks env k initial_loop_state).frames[i]? = _
    rw [hfr2, List.getElem?_map, List.getElem?_range hi]
    rfl
  · show ((after_ticks env k initial_loop_state).frames.map Prod.fst).Nodup
    rw [hpaths]
    exact frame_paths_nodup k hk
  · unfold main
    cases env.glfwInit
    · left; rfl
    cases env.glfwCreateWindow
    · left; rfl
    cases hv : gl_create_and_compile_shader env.vertex_file env.vertex_gl
        GL_VERTEX_SHADER VERTEX_FILE_PATH with
    | error e => left; rfl
    | ok vs =>
      cases hf : gl_create_and_compile_shader env.fragment_file env.fragment_gl
          GL_FRAGMENT_SHADER FRAGMENT_FILE_PATH with
      | error e => left; rfl
      | ok fs =>
        cases hl : gl_create_and_link_program env.program_gl vs fs with
        | error e => left; simp [hl]
        | ok program =>
          right
          have hr2 : render_loop env 100 { i := 0, body := initial_body32, frames := [] }
              = (after_ticks env k initial_loop_state, .ok ()) := hr
          simp [hl, hr2]

/-- C6 as amended, on the healthy run: nothing asks the window to close, every frame
file opens, and the loop ends after 100 ticks with 100 frames. -/
theorem render_loop_ticks_witness :
    (render_loop healthy_env 100 initial_loop_state).2 = .ok ()
    ∧ (render_loop healthy_env 100 initial_loop_state).1.i = 100
    ∧ (render_loop healthy_env 100 initial_loop_state).1.frames.length = 100 :=
  have h := render_loop_ticks healthy_env 100 (Nat.le_refl 100) (fun _ _ => rfl)
    (fun hlt => absurd hlt (by decide)) (fun _ _ => rfl)
  ⟨h.1, h.2.1, h.2.2.1⟩

/-! ## C7: a texture that cannot be decoded -/

/-- C7, the code at the failing input: when the decoder returns the null pointer and
everything else succeeds, `main` passes the null pointer to `glTexImage2D`, compiles and
links the shaders, enters the render loop, runs all 100 ticks and returns 0. -/
theorem null_texture_is_uploaded :
    null_image_env.stbi_load = none
    ∧ (main null_image_env).trace = [Event.tex_image none,
        Event.shader_compiled GL_VERTEX_SHADER, Event.shader_compiled GL_FRAGMENT_SHADER,
        Event.link_program, Event.enter_render_loop]
    ∧ (main null_image_env).ending = .ok 0
    ∧ ∃ s, (main null_image_env).loop = some s ∧ s.i = 100 ∧ s.frames.length = 100 := by
  have hm := main_of_startup null_image_env rfl rfl 1 1 1 (by decide) (by decide) (by decide)
  have hi0 : initial_loop_state.i = 0 := rfl
  have hr := render_loop_run null_image_env 100 100 initial_loop_state (Nat.le_refl 100)
    (by rw [hi0]) (fun _ _ => rfl) (fun _ _ => rfl) (fun hlt => absurd hlt (by rw [hi0]; decide))
  refine ⟨rfl, hm.1, ?_, ?_⟩
  · rw [hm.2.2, hr]
  · refine ⟨_, hm.2.1, ?_, ?_⟩
    · rw [hr]
      show (after_ticks null_image_env 100 initial_loop_state).i = 100
      rw [after_ticks_i, hi0]
    · rw [hr]
      show (after_ticks null_image_env 100 initial_loop_state).frames.length = 100
      rw [after_ticks_frames]
      simp [initial_loop_state]

/-! ## C8: shader compilation -/

/-- C8 fails as stated: for the vertex stage and a source path that cannot be opened
the function aborts inside `file_as_cstr`, and the diagnostic on the error stream names
the path but not the stage kind. -/
theorem compile_unreadable_source_diagnostic :
    gl_create_and_compile_shader missing_file rejecting_driver GL_VERTEX_SHADER "shader.vert"
      = .error (.aborted "Could not open file `shader.vert`: No such file or directory\n")
    ∧ gl_shader_type_as_cstr GL_VERTEX_SHADER = "GL_VERTEX_SHADER"
    ∧ ¬ ("GL_VERTEX_SHADER".data
          <:+: "Could not open file `shader.vert`: No such file or directory\n".data) := by
  decide

/-- C8 as amended: for the vertex and the fragment stage and every source path,
`gl_create_and_compile_shader` returns a shader handle exactly when the source was
loaded and the driver reports compile status true; when the source was loaded, the
driver reports another status and its info log has at least two characters, it aborts
after writing a diagnostic that contains the name of the stage kind and the file path;
when the info log is shorter, line 116 uses bytes of `message` that were never written
and the behaviour is undefined; when the source cannot be loaded it aborts with the
diagnostic of `file_as_cstr`, which contains the file path; and when either stage does
not come back with a handle, startup reaches neither program linking nor the render
loop and ends in an error. -/
theorem compile_shader_outcome (file : FileAnswers) (gl : DriverAnswers) (shader_type : Nat)
    (file_path : String)
    (hkind : shader_type = GL_VERTEX_SHADER ∨ shader_type = GL_FRAGMENT_SHADER) :
    ((∃ handle, gl_create_and_compile_shader file gl shader_type file_path = .ok handle)
      ↔ ((∃ source, file_as_cstr file file_path = .ok source) ∧ gl.status = GL_TRUE))
    ∧ ((shader_type = GL_VERTEX_SHADER ∧ gl_shader_type_as_cstr shader_type = "GL_VERTEX_SHADER")
      ∨ (shader_type = GL_FRAGMENT_SHADER
          ∧ gl_shader_type_as_cstr shader_type = "GL_FRAGMENT_SHADER"))
    ∧ ((∃ source, file_as_cstr file file_path = .ok source) → gl.status ≠ GL_TRUE →
        2 ≤ gl.log_length →
        gl_create_and_compile_shader file gl shader_type file_path
            = .error (.aborted (gl_shader_type_as_cstr shader_type ++ " failed compiled:\n"
                ++ (file_path ++ ":" ++ fmt_prec_s (gl.log_length - 2) (String.mk (gl.message.toList.drop 2)))))
          ∧ (gl_shader_type_as_cstr shader_type).data
              <:+: (gl_shader_type_as_cstr shader_type ++ " failed compiled:\n"
                ++ (file_path ++ ":"
                  ++ fmt_prec_s (gl.log_length - 2) (String.mk (gl.message.toList.drop 2)))).data
          ∧ file_path.data
              <:+: (gl_shader_type_as_cstr shader_type ++ " failed compiled:\n"
                ++ (file_path ++ ":"
                  ++ fmt_prec_s (gl.log_length - 2) (String.mk (gl.message.toList.drop 2)))).data
          ∧ fmt_prec_s (gl.log_length - 2) (String.mk (gl.message.toList.drop 2)) = String.mk (gl.message.toList.drop 2))
    ∧ ((∃ source, file_as_cstr file file_path = .ok source) → gl.status ≠ GL_TRUE →
        gl.log_length < 2 →
        gl_create_and_compile_shader file gl shader_type file_path = .error .undefined)
    ∧ ((¬ ∃ source, file_as_cstr file file_path = .ok source) →
        ∃ stderr, gl_create_and_compile_shader file gl shader_type file_path
            = .error (.aborted stderr)
          ∧ file_as_cstr file file_path = .error (.aborted stderr)
          ∧ file_path.data <:+: stderr.data)
    ∧ (∀ env : Env,
        ((¬ ∃ handle, gl_create_and_compile_shader env.vertex_file env.vertex_gl
              GL_VERTEX_SHADER VERTEX_FILE_PATH = .ok handle)
          ∨ (¬ ∃ handle, gl_create_and_compile_shader env.fragment_file env.fragment_gl
              GL_FRAGMENT_SHADER FRAGMENT_FILE_PATH = .ok handle)) →
        Event.link_program ∉ (main env).trace ∧ Event.enter_render_loop ∉ (main env).trace
          ∧ ∃ e, (main env).ending = .error e) := by
  refine ⟨?_, ?_, ?_, ?_, ?_, ?_⟩
  · constructor
    · rintro ⟨handle, hh⟩
      cases hs : file_as_cstr file file_path with
      | error e => rw [compile_of_no_source file gl shader_type file_path e hs] at hh; cases hh
      | ok source =>
        refine ⟨⟨source, rfl⟩, ?_⟩
        rw [compile_of_source file gl shader_type file_path source hs] at hh
        by_contra hne
        rw [if_pos hne] at hh
        split_ifs at hh
    · rintro ⟨⟨source, hs⟩, hst⟩
      refine ⟨gl.handle, ?_⟩
      rw [compile_of_source file gl shader_type file_path source hs, if_neg (not_not.mpr hst)]
  · rcases hkind with hk | hk
    · left; subst hk; exact ⟨rfl, by decide⟩
    · right; subst hk; exact ⟨rfl, by decide⟩
  · rintro ⟨source, hs⟩ hne hlen
    refine ⟨?_, ?_, ?_, ?_⟩
    · rw [compile_of_source file gl shader_type file_path source hs, if_pos hne,
        if_neg (by omega)]
    · have := infix_of_append "" (gl_shader_type_as_cstr shader_type)
        (" failed compiled:\n"
          ++ (file_path ++ ":" ++ fmt_prec_s (gl.log_length - 2) (String.mk (gl.message.toList.drop 2))))
      simpa [String.append_assoc] using this
    · have := infix_of_append (gl_shader_type_as_cstr shader_type ++ " failed compiled:\n")
        file_path (":" ++ fmt_prec_s (gl.log_length - 2) (String.mk (gl.message.toList.drop 2)))
      simpa [String.append_assoc] using this
    · unfold fmt_prec_s
      rw [if_neg (by omega)]
      have hl : (List.drop 2 gl.message.toList).length ≤ (gl.log_length - 2).toNat := by
        have h1 : gl.log_length = ((gl.message.toList.length : Nat) : Int) := rfl
        rw [List.length_drop, h1]
        omega
      show String.mk (List.take (gl.log_length - 2).toNat (List.drop 2 gl.message.toList))
        = String.mk (List.drop 2 gl.message.toList)
      rw [List.take_of_length_le hl]
  · rintro ⟨source, hs⟩ hne hlen
    rw [compile_of_source file gl shader_type file_path source hs, if_pos hne, if_pos hlen]
  · intro hno
    rcases file_as_cstr_cases file file_path with ⟨hok, _⟩ | ⟨⟨pre, post, he⟩, _⟩
    · exact absurd ⟨_, hok⟩ hno
    · exact ⟨_, compile_of_no_source file gl shader_type file_path _ he, he,
        infix_of_append pre file_path post⟩
  · intro env h
    have := main_stops_without_shaders env h
    exact ⟨this.1, this.2.1, this.2.2.2⟩

/-- C8 as amended, on an instance: a fragment shader whose source is read and which the
driver rejects with a log of 27 characters makes the function abort with a diagnostic
that names the stage kind and the path. -/
theorem compile_shader_outcome_witness :
    gl_create_and_compile_shader readable_file rejecting_driver GL_FRAGMENT_SHADER "shader.frag"
      = .error (.aborted (gl_shader_type_as_cstr GL_FRAGMENT_SHADER ++ " failed compiled:\n"
          ++ ("shader.frag" ++ ":" ++ fmt_prec_s (rejecting_driver.log_length - 2)
            (String.mk (rejecting_driver.message.toList.drop 2)))))
    ∧ gl_shader_type_as_cstr GL_FRAGMENT_SHADER ++ " failed compiled:\n"
          ++ ("shader.frag" ++ ":" ++ fmt_prec_s (rejecting_driver.log_length - 2)
            (String.mk (rejecting_driver.message.toList.drop 2)))
        = "GL_FRAGMENT_SHADER failed compiled:\nshader.frag:1(1): error: syntax error" :=
  ⟨((compile_shader_outcome readable_file rejecting_driver GL_FRAGMENT_SHADER "shader.frag"
    (Or.inr rfl)).2.2.1 ⟨[118, 111, 105, 100, 10, 0], by decide⟩ (by decide) (by decide)).1,
    by decide⟩

/-! ## C9: the resource loader -/

/-- C9: for every file path, `file_as_cstr` either returns a buffer of length `n + 1`
whose first `n` bytes are the whole content of the file (`n` its size) and whose last
byte is NUL, or aborts the process; it aborts exactly when the file cannot be opened,
a seek or the size query fails, the buffer cannot be allocated, or the read returns
fewer than `n` bytes; a buffer that is returned is never partial. -/
theorem file_as_cstr_contract (a : FileAnswers) (filepath : String) :
    (file_as_cstr a filepath = .ok (a.contents ++ [0])
      ∨ ∃ stderr, file_as_cstr a filepath = .error (.aborted stderr))
    ∧ ((∃ stderr, file_as_cstr a filepath = .error (.aborted stderr))
        ↔ (a.fopen_ok = false ∨ a.fseek_end_fails = true ∨ a.ftell_fails = true
          ∨ a.fseek_set_fails = true ∨ a.calloc_fails = true
          ∨ min a.contents.length a.fread_limit < a.contents.length))
    ∧ (∀ buffer, file_as_cstr a filepath = .ok buffer →
        buffer.length = a.contents.length + 1
        ∧ buffer.take a.contents.length = a.contents
        ∧ buffer[a.contents.length]? = some 0
        ∧ buffer = a.contents ++ [0]) := by
  rcases file_as_cstr_cases a filepath with ⟨hok, h1, h2, h3, h4, h5, h6⟩ | ⟨⟨pre, post, he⟩, hf⟩
  · refine ⟨Or.inl hok, ⟨?_, ?_⟩, ?_⟩
    · rintro ⟨stderr, he⟩
      rw [hok] at he
      cases he
    · intro hf
      rcases hf with hf | hf | hf | hf | hf | hf
      · rw [h1] at hf; cases hf
      · rw [h2] at hf; cases hf
      · rw [h3] at hf; cases hf
      · rw [h4] at hf; cases hf
      · rw [h5] at hf; cases hf
      · exact absurd hf h6
    · intro buffer hb
      rw [hok] at hb
      cases hb
      simp
  · refine ⟨Or.inr ⟨_, he⟩, ⟨fun _ => hf, fun _ => ⟨_, he⟩⟩, ?_⟩
    intro buffer hb
    rw [he] at hb
    cases hb

/-- C9 on an instance: a readable file of five bytes comes back as those five bytes
followed by NUL. -/
theorem file_as_cstr_contract_witness :
    file_as_cstr readable_file "shader.vert" = .ok [118, 111, 105, 100, 10, 0]
    ∧ ([118, 111, 105, 100, 10, 0] : List UInt8).length = readable_file.contents.length + 1 :=
  have h := (file_as_cstr_contract readable_file "shader.vert").2.2
    [118, 111, 105, 100, 10, 0] (by decide)
  ⟨by rw [h.2.2.2]; rfl, h.1⟩

/-! ## C10: the reads of the pixel buffer -/

/-- C10: for output row `0 <= y < 600`, column `0 <= x < 800` and channel `c` in
`{0,1,2}` the index expression of lines 31-33 is computed without leaving the 32-bit
`int` range at any step, its value `(600 - y - 1)*800*4 + x*4 + c` is at least 0 and
less than `4*800*600`, the length of the buffer, so the read is defined; its remainder
modulo 4 is `c`, never 3; distinct `(y, x, c)` give distinct indices; and the writer
never runs into undefined behaviour. -/
theorem pixel_index_in_bounds (y x c : Int) (hy : 0 ≤ y ∧ y < 600) (hx : 0 ≤ x ∧ x < 800)
    (hc : 0 ≤ c ∧ c ≤ 2) :
    pixel_index y x c = some ((600 - y - 1) * 800 * 4 + x * 4 + c)
    ∧ 0 ≤ (600 - y - 1) * 800 * 4 + x * 4 + c
    ∧ (600 - y - 1) * 800 * 4 + x * 4 + c < 4 * 800 * 600
    ∧ ((4 * 800 * 600 : Int) = (PIXELS_SIZE : Int))
    ∧ (INT_MIN ≤ (600 - y - 1) * 800 * 4 + x * 4 + c
        ∧ (600 - y - 1) * 800 * 4 + x * 4 + c ≤ INT_MAX)
    ∧ (∀ pixels : PixelBuffer,
        ∃ v, pixels_at pixels ((600 - y - 1) * 800 * 4 + x * 4 + c) = some v)
    ∧ ((600 - y - 1) * 800 * 4 + x * 4 + c) % 4 = c
    ∧ ((600 - y - 1) * 800 * 4 + x * 4 + c) % 4 ≠ 3
    ∧ (∀ y1 x1 c1 : Int, 0 ≤ y1 ∧ y1 < 600 → 0 ≤ x1 ∧ x1 < 800 → 0 ≤ c1 ∧ c1 ≤ 2 →
        pixel_index y1 x1 c1 = pixel_index y x c → y1 = y ∧ x1 = x ∧ c1 = c)
    ∧ (∀ (pixels : PixelBuffer) (strerror file_path : String),
        ∃ out, save_pixels_to_ppm_file true strerror pixels file_path = .ok out) := by
  have hs : (PIXELS_SIZE : Int) = 1920000 := by
    have : PIXELS_SIZE = 1920000 := by decide
    rw [this]; rfl
  refine ⟨pixel_index_eq y x c hy hx hc, by omega, by omega, by rw [hs]; norm_num, ?_,
    fun pixels => ⟨_, pixels_at_eq pixels _ (by omega)⟩, by omega, by omega, ?_,
    fun pixels s p => ⟨_, save_pixels_eq pixels s p⟩⟩
  · unfold INT_MIN INT_MAX; omega
  · intro y1 x1 c1 hy1 hx1 hc1 he
    rw [pixel_index_eq y x c hy hx hc, pixel_index_eq y1 x1 c1 hy1 hx1 hc1] at he
    have he2 := Option.some.inj he
    omega

/-- C10 at the last channel read: row 599, column 799, channel 2 reads index 3198. -/
theorem pixel_index_in_bounds_witness :
    pixel_index 599 799 2 = some ((600 - 599 - 1) * 800 * 4 + 799 * 4 + 2)
    ∧ ((600 - 599 - 1) * 800 * 4 + 799 * 4 + 2 : Int) < 4 * 800 * 600 :=
  have h := pixel_index_in_bounds 599 799 2 (by decide) (by decide) (by decide)
  ⟨h.1, h.2.2.1⟩

end OpenglExample
